import Mathlib

/-!
Verification development for the contact-extraction engine of the
Working-Data-Scraper repository.

The engine (src/scraper/WebScraper.js and src/scraper/EnhancedWebScraper.js)
is a collection of pure string functions built on JavaScript regular
expressions.  We give a shallow embedding: strings are `List Char`, each
source regular expression is transcribed into a small regex AST (`RE`), and
a backtracking matcher `mtch` implements the ECMAScript matching discipline
(leftmost match, ordered alternation, greedy/lazy quantifiers, word
boundaries, capture groups, backreferences, the `i` flag).  On top of the
matcher we implement the JavaScript string operations the source uses:
`String.prototype.match` with the `g` flag (`jsMatch`), `RegExp.prototype.exec`
from `lastIndex = 0` (`jsExec`), `RegExp.prototype.test` (`rtest`) and
`String.prototype.replace` (`jsReplaceAll`, `jsReplaceFirst`).

Very simple anchored regular expressions that universally quantified claims
must reason about (for example the digit-run skip patterns inside
`isValidPhoneNumber`) are translated directly into decidable predicates;
each such translation carries a comment citing the original pattern.

JavaScript numbers (the confidence scores) are modelled as rationals; the
scores in the source are sums of decimal literals and the claims are
inequalities with slack, so the float/rational gap is immaterial there.
-/

/-- Strings are lists of characters. -/
abbrev Str := List Char

/-- Capture environment of a regex match: group index ↦ captured text.
Entries are prepended, so `capGet` finds the most recent assignment. -/
abbrev Caps := List (Nat × Str)

/-- Convert a Lean string literal to our character-list representation. -/
def str (s : String) : Str := s.toList

/-- ECMAScript `\s` restricted to the character set that occurs in this
repository's data (ASCII whitespace plus NBSP). -/
def jsSpace (c : Char) : Bool :=
  c = ' ' || c = '\t' || c = '\n' || c = '\r' ||
  c = Char.ofNat 11 || c = Char.ofNat 12 || c = Char.ofNat 160

/-- ECMAScript `\d`. -/
def jsDigit (c : Char) : Bool := '0' ≤ c && c ≤ '9'

/-- ECMAScript `\w`. -/
def jsWordC (c : Char) : Bool :=
  ('a' ≤ c && c ≤ 'z') || ('A' ≤ c && c ≤ 'Z') || jsDigit c || c = '_'

/-- ASCII lower-casing of one character (JS `toLowerCase` on ASCII). -/
def lowC (c : Char) : Char :=
  if 'A' ≤ c && c ≤ 'Z' then Char.ofNat (c.toNat + 32) else c

/-- ASCII upper-casing of one character. -/
def upC (c : Char) : Char :=
  if 'a' ≤ c && c ≤ 'z' then Char.ofNat (c.toNat - 32) else c

/-- JS `toLowerCase` on a string (ASCII). -/
def lowerStr (s : Str) : Str := s.map lowC

/-- JS `String.prototype.trim`. -/
def jsTrim (s : Str) : Str := (s.dropWhile jsSpace).reverse.dropWhile jsSpace |>.reverse

/-- Whether `pat` occurs as a contiguous substring of `s`
(JS `String.prototype.includes`). -/
def strIncludes (s pat : Str) : Bool :=
  match s with
  | [] => pat.isEmpty
  | _ :: rest => pat.isPrefixOf s || strIncludes rest pat

/-- JS `String.prototype.startsWith`. -/
def strStarts (s pat : Str) : Bool := pat.isPrefixOf s

/-- JS `String.prototype.endsWith`. -/
def strEnds (s pat : Str) : Bool := pat.reverse.isPrefixOf s.reverse

/-- JS `String.prototype.split` with a single-character separator. -/
def splitOnChar (sep : Char) (s : Str) : List Str :=
  match s with
  | [] => [[]]
  | c :: rest =>
    let r := splitOnChar sep rest
    if c = sep then [] :: r
    else match r with
      | [] => [[c]]
      | h :: t => (c :: h) :: t

/-- Accumulator pass for `wordsBy`. -/
def wordsByAux : Str → Str → List Str
  | [], acc => if acc.isEmpty then [] else [acc.reverse]
  | c :: rest, acc =>
    if jsSpace c then
      if acc.isEmpty then wordsByAux rest [] else acc.reverse :: wordsByAux rest []
    else wordsByAux rest (c :: acc)

/-- JS `String.prototype.split(/\s+/)`: maximal runs of non-whitespace
characters.  The source only applies this split to trimmed strings, where
this agrees with ECMAScript (and on the all-whitespace corner both sides
make every downstream `parts.length` test behave identically). -/
def wordsBy (s : Str) : List Str := wordsByAux s []

/-- JS `String.prototype.substring(a, b)`. -/
def substr (s : Str) (a b : Nat) : Str := (s.take b).drop a

/-- JS `String.prototype.substring(a)`. -/
def substrFrom (s : Str) (a : Nat) : Str := s.drop a

/-! ## A computable stable sort with a boolean comparator

JavaScript `Array.prototype.sort` sorts by a comparator.  The claims only
depend on the output being a sorted permutation (every concrete evaluation
in this file sorts lists with pairwise-distinct keys, where the sorted
permutation is unique), so a structurally recursive insertion sort is a
faithful model. -/

/-- Insert `x` into `l` before the first element `y` with `le x y`. -/
def insertB (le : α → α → Bool) (x : α) : List α → List α
  | [] => [x]
  | y :: ys => if le x y then x :: y :: ys else y :: insertB le x ys

/-- Insertion sort with a boolean comparator. -/
def sortB (le : α → α → Bool) : List α → List α
  | [] => []
  | x :: xs => insertB le x (sortB le xs)

theorem mem_insertB (le : α → α → Bool) (x a : α) (l : List α) :
    a ∈ insertB le x l ↔ a = x ∨ a ∈ l := by
  induction l with
  | nil => simp [insertB]
  | cons y ys ih =>
    simp only [insertB]
    by_cases h : le x y = true
    · simp [h]
    · simp [h, List.mem_cons, ih]
      tauto

theorem mem_sortB (le : α → α → Bool) (a : α) (l : List α) :
    a ∈ sortB le l ↔ a ∈ l := by
  induction l with
  | nil => simp [sortB]
  | cons x xs ih => simp [sortB, mem_insertB, ih]

theorem length_insertB (le : α → α → Bool) (x : α) (l : List α) :
    (insertB le x l).length = l.length + 1 := by
  induction l with
  | nil => simp [insertB]
  | cons y ys ih =>
    simp only [insertB]
    by_cases h : le x y = true <;> simp [h, ih]

theorem length_sortB (le : α → α → Bool) (l : List α) :
    (sortB le l).length = l.length := by
  induction l with
  | nil => simp [sortB]
  | cons x xs ih => simp [sortB, length_insertB, ih]

theorem pairwise_insertB (le : α → α → Bool)
    (htot : ∀ a b, le a b = true ∨ le b a = true)
    (htrans : ∀ a b c, le a b = true → le b c = true → le a c = true)
    (x : α) (l : List α)
    (hl : l.Pairwise (fun a b => le a b = true)) :
    (insertB le x l).Pairwise (fun a b => le a b = true) := by
  induction l with
  | nil => simp [insertB]
  | cons y ys ih =>
    rcases List.pairwise_cons.mp hl with ⟨hy, hys⟩
    simp only [insertB]
    by_cases h : le x y = true
    · rw [if_pos h]
      refine List.pairwise_cons.mpr ⟨?_, hl⟩
      intro b hb
      rcases List.mem_cons.mp hb with rfl | hb
      · exact h
      · exact htrans x y b h (hy b hb)
    · rw [if_neg h]
      refine List.pairwise_cons.mpr ⟨?_, ih hys⟩
      intro b hb
      rcases (mem_insertB le x b ys).mp hb with hbx | hb
      · rw [hbx]
        rcases htot x y with hxy | hyx
        · exact absurd hxy h
        · exact hyx
      · exact hy b hb

theorem pairwise_sortB (le : α → α → Bool)
    (htot : ∀ a b, le a b = true ∨ le b a = true)
    (htrans : ∀ a b c, le a b = true → le b c = true → le a c = true)
    (l : List α) :
    (sortB le l).Pairwise (fun a b => le a b = true) := by
  induction l with
  | nil => simp [sortB]
  | cons x xs ih => exact pairwise_insertB le htot htrans x _ ih


/-! ## ECMAScript regular-expression engine

A backtracking matcher over a regex AST, in continuation-passing style with
an explicit fuel bounding the depth of the search tree (the fuel used below
exceeds the deepest search path any of the transcribed patterns can build on
the strings in this development, so exhaustion never fires).  The matcher
implements ordered alternation, greedy and lazy bounded repetition with the
ECMAScript empty-iteration cutoff, capture groups, backreferences, `^`, `$`,
`\b` and the `i` flag. -/

/-- One constituent of a character class. -/
inductive CItem where
  | ch (c : Char)
  | rng (lo hi : Char)
  | dC
  | sC
  | wC
deriving DecidableEq

/-- Regex AST. -/
inductive RE where
  | eps
  | lit (c : Char)
  | cls (neg : Bool) (items : List CItem)
  | anyc
  | seq (a b : RE)
  | alt (a b : RE)
  | rep (lo : Nat) (hi : Option Nat) (greedy : Bool) (r : RE)
  | grp (n : Nat) (r : RE)
  | bref (n : Nat)
  | bos
  | eos
  | wb
deriving DecidableEq

/-- Does character `c` match a single class item (under the `i` flag)? -/
def citemMatch (ci : Bool) (c : Char) : CItem → Bool
  | .ch d => c = d || (ci && lowC c = lowC d)
  | .rng lo hi =>
    (lo ≤ c && c ≤ hi) ||
    (ci && ((lo ≤ lowC c && lowC c ≤ hi) || (lo ≤ upC c && upC c ≤ hi)))
  | .dC => jsDigit c
  | .sC => jsSpace c
  | .wC => jsWordC c

/-- Does `c` match the class `[items]` / `[^items]`? -/
def clsMatch (ci neg : Bool) (items : List CItem) (c : Char) : Bool :=
  let m := items.any (citemMatch ci c)
  if neg then !m else m

/-- Most recent capture for group `n`, if any. -/
def capGet (caps : Caps) (n : Nat) : Option Str :=
  (caps.find? (fun p => p.1 = n)).map (fun p => p.2)

/-- Is the position left of `oc` a word character (for `\b`)? -/
def wordAt : Option Char → Bool
  | none => false
  | some c => jsWordC c

/-- Case-insensitive-aware string equality used by backreferences. -/
def ciEq (ci : Bool) (a b : Str) : Bool :=
  if ci then lowerStr a = lowerStr b else a = b

/-- The previous-character marker after consuming `m` (falling back to the
old marker when `m` is empty). -/
def lastPrev (m : Str) (prev : Option Char) : Option Char :=
  match m.getLast? with
  | some c => some c
  | none => prev

/-- The backtracking matcher.  `mtch fuel ci re s prev caps k` tries to match
`re` at the start of `s` (where `prev` is the character immediately before
`s` in the whole subject, `none` at the subject start) and calls the
continuation `k` with the remainder, new marker and captures on success.
Alternatives are explored in ECMAScript priority order, so the first
success returned is the ECMAScript match. -/
def mtch : Nat → Bool → RE → Str → Option Char → Caps →
    (Str → Option Char → Caps → Option (Str × Caps)) → Option (Str × Caps)
  | 0, _, _, _, _, _, _ => none
  | fuel+1, ci, re, s, prev, caps, k =>
    match re with
    | .eps => k s prev caps
    | .lit c =>
      match s with
      | [] => none
      | d :: rest =>
        if d = c || (ci && lowC d = lowC c) then k rest (some d) caps else none
    | .cls neg items =>
      match s with
      | [] => none
      | d :: rest => if clsMatch ci neg items d then k rest (some d) caps else none
    | .anyc =>
      match s with
      | [] => none
      | d :: rest => if d = '\n' || d = '\r' then none else k rest (some d) caps
    | .seq a b =>
      mtch fuel ci a s prev caps (fun s2 p2 c2 => mtch fuel ci b s2 p2 c2 k)
    | .alt a b =>
      match mtch fuel ci a s prev caps k with
      | some res => some res
      | none => mtch fuel ci b s prev caps k
    | .rep lo hi g r =>
      match lo with
      | lo0+1 =>
        mtch fuel ci r s prev caps (fun s2 p2 c2 =>
          mtch fuel ci (.rep lo0 (hi.map (fun h => h - 1)) g r) s2 p2 c2 k)
      | 0 =>
        match hi with
        | some 0 => k s prev caps
        | _ =>
          let hi2 := hi.map (fun h => h - 1)
          if g then
            match mtch fuel ci r s prev caps (fun s2 p2 c2 =>
                if s2.length = s.length then none
                else mtch fuel ci (.rep 0 hi2 g r) s2 p2 c2 k) with
            | some res => some res
            | none => k s prev caps
          else
            match k s prev caps with
            | some res => some res
            | none =>
              mtch fuel ci r s prev caps (fun s2 p2 c2 =>
                if s2.length = s.length then none
                else mtch fuel ci (.rep 0 hi2 g r) s2 p2 c2 k)
    | .grp n r =>
      mtch fuel ci r s prev caps (fun s2 p2 c2 =>
        k s2 p2 ((n, s.take (s.length - s2.length)) :: c2))
    | .bref n =>
      match capGet caps n with
      | none => k s prev caps
      | some t =>
        if ciEq ci t (s.take t.length) && t.length ≤ s.length then
          k (s.drop t.length) (lastPrev (s.take t.length) prev) caps
        else none
    | .bos => if prev = none then k s prev caps else none
    | .eos => if s.isEmpty then k s prev caps else none
    | .wb => if wordAt prev != wordAt s.head? then k s prev caps else none

/-- Search-tree depth budget; far beyond what any pattern here can build. -/
def FUEL : Nat := 4000

/-- Try to match `re` exactly at the current position. -/
def tryAt (ci : Bool) (re : RE) (s : Str) (prev : Option Char) :
    Option (Str × Caps) :=
  mtch FUEL ci re s prev [] (fun s2 _ c2 => some (s2, c2))

/-- All matches of a global regex, as `String.prototype.match(/…/g)` returns
them: scan left to right, taking the priority match at each position and
continuing after it (advancing one character after an empty match). -/
def matchAllAux : Nat → Bool → RE → Str → Option Char → List Str
  | 0, _, _, _, _ => []
  | f+1, ci, re, s, prev =>
    match tryAt ci re s prev with
    | some (s2, _) =>
      let m := s.take (s.length - s2.length)
      if m.isEmpty then
        match s with
        | [] => [[]]
        | c :: rest => [] :: matchAllAux f ci re rest (some c)
      else m :: matchAllAux f ci re s2 (lastPrev m prev)
    | none =>
      match s with
      | [] => []
      | c :: rest => matchAllAux f ci re rest (some c)

/-- `s.match(re)` with the `g` flag (empty list stands for JS `null`). -/
def jsMatch (ci : Bool) (re : RE) (s : Str) : List Str :=
  matchAllAux (s.length + 1) ci re s none

/-- First match together with its captures. -/
def execFirstAux : Nat → Bool → RE → Str → Option Char → Option (Str × Caps)
  | 0, _, _, _, _ => none
  | f+1, ci, re, s, prev =>
    match tryAt ci re s prev with
    | some (s2, caps) => some (s.take (s.length - s2.length), caps)
    | none =>
      match s with
      | [] => none
      | c :: rest => execFirstAux f ci re rest (some c)

/-- `re.exec(s)` from `lastIndex = 0` (also `s.match(re)` without `g`):
the matched substring and the capture environment. -/
def jsExec (ci : Bool) (re : RE) (s : Str) : Option (Str × Caps) :=
  execFirstAux (s.length + 1) ci re s none

/-- `re.test(s)`. -/
def rtest (ci : Bool) (re : RE) (s : Str) : Bool := (jsExec ci re s).isSome

/-- A piece of a replacement template: literal text or `$n`. -/
inductive TPart where
  | lit (s : Str)
  | ref (n : Nat)

/-- Render a replacement template against a capture environment
(an unset group renders as the empty string, as in ECMAScript). -/
def renderT (caps : Caps) : List TPart → Str
  | [] => []
  | .lit s :: rest => s ++ renderT caps rest
  | .ref n :: rest => ((capGet caps n).getD []) ++ renderT caps rest

/-- `s.replace(/re/g, template)`. -/
def replaceAllAux : Nat → Bool → RE → List TPart → Str → Option Char → Str
  | 0, _, _, _, s, _ => s
  | f+1, ci, re, t, s, prev =>
    match tryAt ci re s prev with
    | some (s2, caps) =>
      let m := s.take (s.length - s2.length)
      if m.isEmpty then
        match s with
        | [] => renderT caps t
        | c :: rest => renderT caps t ++ c :: replaceAllAux f ci re t rest (some c)
      else renderT caps t ++ replaceAllAux f ci re t s2 (lastPrev m prev)
    | none =>
      match s with
      | [] => []
      | c :: rest => c :: replaceAllAux f ci re t rest (some c)

/-- Global `String.prototype.replace`. -/
def jsReplaceAll (ci : Bool) (re : RE) (t : List TPart) (s : Str) : Str :=
  replaceAllAux (s.length + 1) ci re t s none

/-- Non-global `String.prototype.replace`: replace the first match only. -/
def replaceFirstAux : Nat → Bool → RE → List TPart → Str → Option Char → Str
  | 0, _, _, _, s, _ => s
  | f+1, ci, re, t, s, prev =>
    match tryAt ci re s prev with
    | some (s2, caps) => renderT caps t ++ s2
    | none =>
      match s with
      | [] => []
      | c :: rest => c :: replaceFirstAux f ci re t rest (some c)

/-- Non-global `String.prototype.replace`. -/
def jsReplaceFirst (ci : Bool) (re : RE) (t : List TPart) (s : Str) : Str :=
  replaceFirstAux (s.length + 1) ci re t s none

/-! ## Pattern-building helpers -/

/-- Sequence a list of regexes. -/
def rcat : List RE → RE
  | [] => .eps
  | [r] => r
  | r :: rest => .seq r (rcat rest)

/-- Ordered alternation of a list of regexes (ECMAScript `a|b|…`). -/
def ralts : List RE → RE
  | [] => .eps
  | [r] => r
  | r :: rest => .alt r (ralts rest)

/-- A literal string. -/
def rstr (s : String) : RE := rcat (s.toList.map RE.lit)

/-- A positive character class listing plain characters. -/
def rcls (s : String) : RE := .cls false (s.toList.map CItem.ch)

/-- `r?` (greedy). -/
def ropt (r : RE) : RE := .rep 0 (some 1) true r

/-- `r*` (greedy). -/
def rstar (r : RE) : RE := .rep 0 none true r

/-- `r+` (greedy). -/
def rplus (r : RE) : RE := .rep 1 none true r

/-- `r{n,m}` (greedy). -/
def rrep (n m : Nat) (r : RE) : RE := .rep n (some m) true r

/-- `r{n,}` (greedy). -/
def rrepMin (n : Nat) (r : RE) : RE := .rep n none true r

/-- `r{n}`. -/
def rexact (n : Nat) (r : RE) : RE := .rep n (some n) true r

/-- Apostrophe and backtick characters (spelled via code points). -/
def apos : Char := Char.ofNat 39

/-- Backtick character. -/
def btick : Char := Char.ofNat 96

/-- Class item for a character range. -/
def ir (lo hi : Char) : CItem := CItem.rng lo hi

/-- Class item for a single character. -/
def ic (c : Char) : CItem := CItem.ch c

/-! ## WebScraper.js — email extraction

Transcriptions of the regular expressions and string logic of
`extractEmails`, `cleanObfuscatedEmail`, `isValidEmail`,
`isValidEmailDomain`, `isEmailFalsePositive`, `extractUrlsFromHtml` and
`emailsFromUrls` (src/scraper/WebScraper.js).  Capturing parentheses whose
captures the source never reads are transcribed without a `grp` node; this
cannot change observable behaviour. -/

/-- `\s` as a regex node. -/
def sSp : RE := .cls false [CItem.sC]

/-- `\s*`. -/
def ws0 : RE := rstar sSp

/-- `\s+`. -/
def ws1 : RE := rplus sSp

/-- `\d` as a regex node. -/
def rdig : RE := .cls false [CItem.dC]

/-- `\w` as a regex node. -/
def rwrd : RE := .cls false [CItem.wC]

/-- `[A-Za-z0-9._%+-]` — the "local part" class of the simple patterns. -/
def clsLocal : RE :=
  .cls false [ir 'A' 'Z', ir 'a' 'z', ir '0' '9', ic '.', ic '_', ic '%', ic '+', ic '-']

/-- `[A-Za-z0-9.-]` — the "domain" class of the simple patterns. -/
def clsDomain : RE := .cls false [ir 'A' 'Z', ir 'a' 'z', ir '0' '9', ic '.', ic '-']

/-- `[A-Z|a-z]` — the TLD class (the source really includes `|`). -/
def clsTld : RE := .cls false [ir 'A' 'Z', ic '|', ir 'a' 'z']

/-- `[a-z0-9!#$%&'*+/=?^_`{|}~-]` — RFC 5322 atom characters. -/
def clsRfcAtom : RE :=
  .cls false [ir 'a' 'z', ir '0' '9', ic '!', ic '#', ic '$', ic '%', ic '&',
    ic apos, ic '*', ic '+', ic '/', ic '=', ic '?', ic '^', ic '_', ic btick,
    ic '{', ic '|', ic '}', ic '~', ic '-']

/-- `[a-z0-9]`. -/
def clsLd : RE := .cls false [ir 'a' 'z', ir '0' '9']

/-- `[a-z0-9-]`. -/
def clsLdh : RE := .cls false [ir 'a' 'z', ir '0' '9', ic '-']

/-- Quoted-string inner characters `[\x01-\x08\x0b\x0c\x0e-\x1f\x21\x23-\x5b\x5d-\x7f]`. -/
def clsRfcQuoted : RE :=
  .cls false [ir (Char.ofNat 1) (Char.ofNat 8), ic (Char.ofNat 11), ic (Char.ofNat 12),
    ir (Char.ofNat 14) (Char.ofNat 31), ic (Char.ofNat 33),
    ir (Char.ofNat 35) (Char.ofNat 91), ir (Char.ofNat 93) (Char.ofNat 127)]

/-- Escaped characters `[\x01-\x09\x0b\x0c\x0e-\x7f]` (after a backslash). -/
def clsRfcEscaped : RE :=
  .cls false [ir (Char.ofNat 1) (Char.ofNat 9), ic (Char.ofNat 11), ic (Char.ofNat 12),
    ir (Char.ofNat 14) (Char.ofNat 127)]

/-- IPv4 octet alternative `(25[0-5]|2[0-4][0-9]|[01]?[0-9][0-9]?)`. -/
def reOctet : RE :=
  ralts [rcat [rstr "25", .cls false [ir '0' '5']],
    rcat [RE.lit '2', .cls false [ir '0' '4'], .cls false [ir '0' '9']],
    rcat [ropt (.cls false [ic '0', ic '1']), .cls false [ir '0' '9'],
      ropt (.cls false [ir '0' '9'])]]

/-- The literal-bracket tail class `[\x01-\x08\x0b\x0c\x0e-\x1f\x21-\x5a\x53-\x7f]`
(sic: the source really writes the overlapping ranges `21-5a` and `53-7f`). -/
def clsRfcDtext : RE :=
  .cls false [ir (Char.ofNat 1) (Char.ofNat 8), ic (Char.ofNat 11), ic (Char.ofNat 12),
    ir (Char.ofNat 14) (Char.ofNat 31), ir (Char.ofNat 33) (Char.ofNat 90),
    ir (Char.ofNat 83) (Char.ofNat 127)]

/-- The RFC 5322 email pattern (`EMAIL_REGEX_STRING`, flags `ig`). -/
def reRfcEmail : RE :=
  .seq
    (ralts [
      rcat [rplus clsRfcAtom, rstar (rcat [RE.lit '.', rplus clsRfcAtom])],
      rcat [RE.lit '"', rstar (ralts [clsRfcQuoted, .seq (RE.lit '\\') clsRfcEscaped]),
        RE.lit '"']])
    (.seq (RE.lit '@')
      (ralts [
        rcat [rplus (rcat [clsLd, ropt (.seq (rstar clsLdh) clsLd), RE.lit '.']),
          clsLd, ropt (.seq (rstar clsLdh) clsLd)],
        rcat [RE.lit '[', rexact 3 (.seq reOctet (RE.lit '.')),
          ralts [reOctet,
            rcat [rstar clsLdh, clsLd, RE.lit ':',
              rplus (ralts [clsRfcDtext, .seq (RE.lit '\\') clsRfcEscaped])]],
          RE.lit ']']]))

/-- `\b[A-Za-z0-9._%+-]+@[A-Za-z0-9.-]+\.[A-Z|a-z]{2,}\b` (flags `g`). -/
def reStdEmail : RE :=
  rcat [RE.wb, rplus clsLocal, RE.lit '@', rplus clsDomain, RE.lit '.',
    rrepMin 2 clsTld, RE.wb]

/-- `\b…\s*\[\s*at\s*\]\s*…\s*\[\s*dot\s*\]\s*…\b` (flags `gi`). -/
def reObfBracket : RE :=
  rcat [RE.wb, rplus clsLocal, ws0, RE.lit '[', ws0, rstr "at", ws0, RE.lit ']', ws0,
    rplus clsDomain, ws0, RE.lit '[', ws0, rstr "dot", ws0, RE.lit ']', ws0,
    rrepMin 2 clsTld, RE.wb]

/-- `\b…\s*\(\s*at\s*\)\s*…\s*\(\s*dot\s*\)\s*…\b` (flags `gi`). -/
def reObfParen : RE :=
  rcat [RE.wb, rplus clsLocal, ws0, RE.lit '(', ws0, rstr "at", ws0, RE.lit ')', ws0,
    rplus clsDomain, ws0, RE.lit '(', ws0, rstr "dot", ws0, RE.lit ')', ws0,
    rrepMin 2 clsTld, RE.wb]

/-- `\b…\s+at\s+…\s+dot\s+…\b` (flags `gi`). -/
def reObfWord : RE :=
  rcat [RE.wb, rplus clsLocal, ws1, rstr "at", ws1, rplus clsDomain, ws1, rstr "dot",
    ws1, rrepMin 2 clsTld, RE.wb]

/-- `\b…&#64;…&#46;…\b` (flags `gi`). -/
def reObfEntityNum : RE :=
  rcat [RE.wb, rplus clsLocal, rstr "&#64;", rplus clsDomain, rstr "&#46;",
    rrepMin 2 clsTld, RE.wb]

/-- `\b…&at;…&dot;…\b` (flags `gi`). -/
def reObfEntityName : RE :=
  rcat [RE.wb, rplus clsLocal, rstr "&at;", rplus clsDomain, rstr "&dot;",
    rrepMin 2 clsTld, RE.wb]

/-- `\b…\s+@\s+…\s+\.\s+…\b` (flags `g`). -/
def reObfSpace : RE :=
  rcat [RE.wb, rplus clsLocal, ws1, RE.lit '@', ws1, rplus clsDomain, ws1, RE.lit '.',
    ws1, rrepMin 2 clsTld, RE.wb]

/-- `\b…\s*\{\s*@\s*\}\s*…\s*\{\s*\.\s*\}\s*…\b` (flags `gi`). -/
def reObfBrace : RE :=
  rcat [RE.wb, rplus clsLocal, ws0, RE.lit '{', ws0, RE.lit '@', ws0, RE.lit '}', ws0,
    rplus clsDomain, ws0, RE.lit '{', ws0, RE.lit '.', ws0, RE.lit '}', ws0,
    rrepMin 2 clsTld, RE.wb]

/-- The `emailPatterns` array of `extractEmails`, each with its `i` flag. -/
def emailPatterns : List (Bool × RE) :=
  [(true, reRfcEmail), (false, reStdEmail), (true, reObfBracket), (true, reObfParen),
   (true, reObfWord), (true, reObfEntityNum), (true, reObfEntityName),
   (false, reObfSpace), (true, reObfBrace)]

/-- Replacement pattern 1 of `cleanObfuscatedEmail`: `/\s*\[\s*at\s*\]\s*/gi`. -/
def reMarkBracketAt : RE := rcat [ws0, RE.lit '[', ws0, rstr "at", ws0, RE.lit ']', ws0]

/-- Replacement pattern 2: `/\s*\[\s*dot\s*\]\s*/gi`. -/
def reMarkBracketDot : RE := rcat [ws0, RE.lit '[', ws0, rstr "dot", ws0, RE.lit ']', ws0]

/-- Replacement pattern 3: `/\s*\(\s*@\s*\)\s*/gi`. -/
def reMarkParenAt : RE := rcat [ws0, RE.lit '(', ws0, RE.lit '@', ws0, RE.lit ')', ws0]

/-- Replacement pattern 4: `/\s*\(\s*\.\s*\)\s*/gi`. -/
def reMarkParenDot : RE := rcat [ws0, RE.lit '(', ws0, RE.lit '.', ws0, RE.lit ')', ws0]

/-- Replacement pattern 5: `/\s+@\s+/g`. -/
def reSpacedAt : RE := rcat [ws1, RE.lit '@', ws1]

/-- Replacement pattern 6: `/\s+\.\s+/g`. -/
def reSpacedDot : RE := rcat [ws1, RE.lit '.', ws1]

/-- `cleanObfuscatedEmail(email)`: the seven chained global replaces. -/
def cleanObfuscatedEmail (email : Str) : Str :=
  jsReplaceAll false sSp [] <|
  jsReplaceAll false reSpacedDot [TPart.lit (str ".")] <|
  jsReplaceAll false reSpacedAt [TPart.lit (str "@")] <|
  jsReplaceAll true reMarkParenDot [TPart.lit (str ".")] <|
  jsReplaceAll true reMarkParenAt [TPart.lit (str "@")] <|
  jsReplaceAll true reMarkBracketDot [TPart.lit (str ".")] <|
  jsReplaceAll true reMarkBracketAt [TPart.lit (str "@")] email

/-- `/^[^\s@]+@[^\s@]+\.[^\s@]+$/` — the structural email test. -/
def reValidEmail : RE :=
  rcat [RE.bos, rplus (.cls true [CItem.sC, ic '@']), RE.lit '@',
    rplus (.cls true [CItem.sC, ic '@']), RE.lit '.',
    rplus (.cls true [CItem.sC, ic '@']), RE.eos]

/-- `isValidEmail(email)`. -/
def isValidEmail (email : Str) : Bool :=
  rtest false reValidEmail email &&
  email.length ≤ 254 &&
  !strStarts email (str ".") &&
  !strEnds email (str ".") &&
  !strIncludes email (str "..") &&
  (splitOnChar '@' email).length = 2

/-- `isValidEmailDomain(email)`.  The TLD test `/^[a-z]{2,6}$/i` is translated
directly: 2–6 characters (already enforced just above it) that are all ASCII
letters in either case. -/
def isValidEmailDomain (email : Str) : Bool :=
  match (splitOnChar '@' email).get? 1 with
  | none => false
  | some domain =>
    if domain.isEmpty then false
    else
      decide (3 ≤ domain.length) && domain.length ≤ 255 &&
      strIncludes domain (str ".") &&
      !strStarts domain (str ".") && !strEnds domain (str ".") &&
      !strIncludes domain (str "..") &&
      (let tld := (splitOnChar '.' domain).getLastD []
       !tld.isEmpty && decide (2 ≤ tld.length) && tld.length ≤ 6 &&
       tld.all (fun c => 'a' ≤ lowC c && lowC c ≤ 'z'))

/-- The `falsePositives` exact-match list of `isEmailFalsePositive`. -/
def emailFalsePositiveList : List Str :=
  [str "test@example.com", str "user@example.com", str "admin@example.com",
   str "info@example.com", str "support@example.com", str "contact@example.com",
   str "noreply@example.com", str "no-reply@example.com", str "hello@example.com",
   str "mail@example.com", str "email@example.com", str "name@example.com",
   str "test@test.com", str "admin@test.com", str "user@test.com",
   str "test@localhost", str "admin@localhost", str "user@localhost",
   str "test@domain.com", str "user@domain.com", str "example@domain.com",
   str "your.email@example.com", str "youremail@example.com",
   str "jane@example.com", str "john@example.com", str "doe@example.com",
   str "jane.doe@example.com", str "john.doe@example.com", str "john.smith@example.com",
   str "info@yoursite.com", str "contact@yoursite.com", str "admin@yoursite.com",
   str "info@yourcompany.com", str "contact@yourcompany.com",
   str "info@company.com", str "contact@company.com",
   str "share@facebook.com", str "like@facebook.com", str "post@facebook.com",
   str "tweet@twitter.com", str "share@twitter.com", str "follow@twitter.com"]

/-- The `domainFalsePositives` list. -/
def domainFalsePositiveList : List Str :=
  [str "example.com", str "example.org", str "example.net",
   str "test.com", str "test.org", str "test.net",
   str "domain.com", str "yourdomain.com", str "yoursite.com",
   str "company.com", str "yourcompany.com", str "mycompany.com",
   str "website.com", str "yourwebsite.com",
   str "sample.com", str "demo.com", str "localhost", str "local",
   str "tempuri.org", str "tempuri.com",
   str "dev.local", str "test.local", str "staging.com",
   str "dev.example.com", str "test.example.com"]

/-- The `placeholderWords` list of `isEmailFalsePositive`. -/
def emailPlaceholderWords : List Str :=
  [str "lorem", str "ipsum", str "placeholder", str "sample", str "test", str "dummy",
   str "fake", str "mock", str "default", str "example", str "demo", str "temp",
   str "temporary", str "invalid", str "enter", str "insert", str "put", str "type",
   str "write", str "click"]

/-- `/(.)\1{4,}/` — five or more copies of one character in a row. -/
def reRepeat5 : RE := .seq (.grp 1 RE.anyc) (.rep 4 none true (.bref 1))

/-- The 17 `suspiciousPatterns` of `isEmailFalsePositive`, in source order,
each with its `i` flag (they are all applied to the lower-cased email). -/
def emailSuspiciousPatterns : List (Bool × RE) :=
  [ (true, rcat [RE.bos, ralts [rcat [rstr "no", ropt (RE.lit '-'), rstr "reply"],
      rcat [rstr "do", ropt (RE.lit '-'), rstr "not", ropt (RE.lit '-'), rstr "reply"],
      rstr "noreply"], RE.lit '@']),
    (true, rcat [RE.bos, ralts [rstr "bounce", rstr "mailer-daemon", rstr "postmaster"],
      RE.lit '@']),
    (true, rcat [RE.bos, ralts [rstr "info", rstr "support", rstr "admin",
      rstr "webmaster", rstr "postmaster"], RE.lit '@', rstar RE.anyc, RE.lit '.',
      ralts [rstr "test", rstr "local", rstr "localhost"], RE.eos]),
    (true, rcat [RE.bos, ralts [rstr "test", rstr "admin", rstr "user", rstr "demo"],
      RE.lit '@', ralts [rstr "test", rstr "demo", rstr "local", rstr "localhost"],
      RE.lit '.']),
    (false, rcat [RE.bos, rplus rdig, RE.lit '@', rplus rdig, RE.lit '.', rplus rdig,
      RE.eos]),
    (true, rcat [RE.bos, .cls false [ir 'a' 'z'], RE.lit '@', .cls false [ir 'a' 'z'],
      RE.lit '.', rrep 2 3 (.cls false [ir 'a' 'z']), RE.eos]),
    (true, rcat [RE.bos, rrep 1 2 RE.anyc, RE.lit '@', rrep 1 2 RE.anyc, RE.lit '.']),
    (false, rcat [RE.bos, rplus (.cls true [ic '@']), RE.lit '@',
      rplus (.cls true [ic '.']), RE.eos]),
    (false, rcat [RE.bos, rrep 1 2 (.cls true [ic '@']), RE.lit '@', rplus RE.anyc]),
    (false, rcat [RE.bos, rplus RE.anyc, RE.lit '@', rrep 1 2 (.cls true [ic '.']),
      RE.lit '.', rplus RE.anyc]),
    (false, .cls false [ic '<', ic '>', ic '"', ic btick, ic apos]),
    (false, rcat [RE.bos, rplus rdig, rstar (.cls false [ir 'a' 'z']), RE.lit '@',
      rplus RE.anyc]),
    (true, rcat [RE.bos, rplus (.cls false [ir 'a' 'z']), rplus rdig,
      rstr "@example."]),
    (true, rcat [RE.bos, ralts [rstr "contact", rstr "info", rstr "support"],
      RE.lit '@', ralts [rstr "company", rstr "business", rstr "website", rstr "site"],
      RE.lit '.']),
    (true, rcat [RE.bos, rstr "email@",
      ralts [rstr "company", rstr "business", rstr "website", rstr "site"], RE.lit '.']),
    (true, rcat [RE.bos, ralts [rstr "your", rstr "my"],
      ralts [rstr "email", rstr "mail", rstr "address"], RE.lit '@']),
    (true, rcat [RE.lit '@', rplus (.cls true [ic '.']), RE.lit '.',
      ralts [rstr "test", rstr "local", rstr "invalid", rstr "localhost",
        rstr "example"], RE.eos]) ]

/-- The `invalidTlds` list. -/
def invalidTldList : List Str :=
  [str "test", str "local", str "localhost", str "invalid", str "example"]

/-- `isEmailFalsePositive(email)`.  The final TLD letter test
`/^[a-z]+$/i` is translated directly (nonempty, all ASCII letters either
case); the list membership on `invalidTlds` is exact, as in the source. -/
def isEmailFalsePositive (email : Str) : Bool :=
  if email.isEmpty then true
  else
    let lowerEmail := lowerStr email
    match (splitOnChar '@' email).get? 1 with
    | none => true
    | some domain =>
      if domain.isEmpty then true
      else if emailFalsePositiveList.contains lowerEmail then true
      else if domainFalsePositiveList.contains domain then true
      else if emailPlaceholderWords.any (fun w => strIncludes lowerEmail w) then true
      else if strIncludes lowerEmail (str "..") || strStarts lowerEmail (str ".") ||
        strEnds lowerEmail (str ".") then true
      else if strIncludes lowerEmail (str "@.") || strIncludes lowerEmail (str ".@") then true
      else if strIncludes domain (str "..") || strStarts domain (str ".") ||
        strEnds domain (str ".") then true
      else if rtest false reRepeat5 lowerEmail then true
      else if emailSuspiciousPatterns.any (fun p => rtest p.1 p.2 lowerEmail) then true
      else
        let tld := (splitOnChar '.' domain).getLastD []
        if tld.length < 2 || 6 < tld.length then true
        else if !(!tld.isEmpty && tld.all (fun c => 'a' ≤ lowC c && lowC c ≤ 'z')) then true
        else if invalidTldList.contains tld then true
        else false

/-- Keep the first occurrence of each element (JS `Set` insertion order,
and also the `arr.indexOf(x) === i` dedup filter of the source). -/
def keepFirstsAux : List Str → List Str → List Str
  | _, [] => []
  | seen, x :: xs =>
    if seen.contains x then keepFirstsAux seen xs
    else x :: keepFirstsAux (x :: seen) xs

/-- Insertion-ordered deduplication. -/
def keepFirsts (l : List Str) : List Str := keepFirstsAux [] l

/-- JS default `Array.prototype.sort()` comparator on strings:
lexicographic by code unit (all strings here are ASCII). -/
def lexLe : Str → Str → Bool
  | [], _ => true
  | _ :: _, [] => false
  | a :: as, b :: bs => if a = b then lexLe as bs else decide (a < b)

/-- `['"]` character class. -/
def clsQuote : RE := .cls false [ic apos, ic '"']

/-- `[^'"]` character class. -/
def clsNotQuote : RE := .cls true [ic apos, ic '"']

/-- `[^'"?]` character class. -/
def clsNotQuoteQm : RE := .cls true [ic apos, ic '"', ic '?']

/-- `linkRegex` of `extractUrlsFromHtml`: `/href\s*=\s*['""]([^'""]+)['"]/gi`. -/
def reLinkHref : RE :=
  rcat [rstr "href", ws0, RE.lit '=', ws0, clsQuote, RE.grp 1 (rplus clsNotQuote),
    clsQuote]

/-- `extractUrlsFromHtml(html)`: global matches of `linkRegex`, each re-run
with the non-global copy to pull out capture 1. -/
def extractUrlsFromHtml (html : Str) : List Str :=
  (jsMatch true reLinkHref html).filterMap (fun m =>
    match jsExec true reLinkHref m with
    | some (_, caps) => capGet caps 1
    | none => none)

/-- `/^mailto:/i` of `emailsFromUrls`. -/
def reMailtoAtStart : RE := .seq RE.bos (rstr "mailto:")

/-- `emailsFromUrls(urls)` (Crawlee-style): keep `mailto:` URLs, strip the
scheme, drop any query string, trim, and keep the structurally valid ones. -/
def emailsFromUrls (urls : List Str) : List Str :=
  urls.filterMap (fun url =>
    if url.isEmpty then none
    else if !rtest true reMailtoAtStart url then none
    else
      let email := jsTrim ((splitOnChar '?' (jsReplaceFirst true reMailtoAtStart [] url)).headD [])
      if isValidEmail email then some email else none)

/-- `mailtoRegex`: `/href\s*=\s*['"]\s*mailto:([^'"?]+)(?:\?[^'"]*)?['"]/gi`. -/
def reMailtoHref : RE :=
  rcat [rstr "href", ws0, RE.lit '=', ws0, clsQuote, ws0, rstr "mailto:",
    RE.grp 1 (rplus clsNotQuoteQm), ropt (.seq (RE.lit '?') (rstar clsNotQuote)),
    clsQuote]

/-- Inner `/mailto:([^'"?]+)/i` applied to each `mailtoRegex` match. -/
def reMailtoInner : RE := .seq (rstr "mailto:") (RE.grp 1 (rplus clsNotQuoteQm))

/-- `([A-Za-z0-9._%+-]+@[A-Za-z0-9.-]+\.[A-Z|a-z]{2,})` — the email core of the
JS-variable and schema patterns. -/
def reEmailCore : RE :=
  rcat [rplus clsLocal, RE.lit '@', rplus clsDomain, RE.lit '.', rrepMin 2 clsTld]

/-- The five `jsEmailPatterns`, in source order, with their `i` flags. -/
def jsEmailPatternList : List (Bool × RE) :=
  [ (false, rcat [clsQuote, RE.grp 1 reEmailCore, clsQuote]),
    (true, rcat [rstr "email", ws0, .cls false [ic ':', ic '='], ws0, ropt clsQuote,
      RE.grp 1 reEmailCore, ropt clsQuote]),
    (true, rcat [rstr "contact", ws0, .cls false [ic ':', ic '='], ws0, ropt clsQuote,
      RE.grp 1 reEmailCore, ropt clsQuote]),
    (true, rcat [rstr "data-email", ws0, RE.lit '=', ws0, clsQuote,
      RE.grp 1 reEmailCore, clsQuote]),
    (true, rcat [rstr "var", ws1, rstar rwrd, rstr "email", rstar rwrd, ws0,
      RE.lit '=', ws0, clsQuote, RE.grp 1 reEmailCore, clsQuote]) ]

/-- Inner `/([A-Za-z0-9._%+-]+@[A-Za-z0-9.-]+\.[A-Z|a-z]{2,})/` (no flags). -/
def reJsEmailInner : RE := RE.grp 1 reEmailCore

/-- The three `schemaPatterns` for emails, in source order (`gi`). -/
def schemaEmailPatternList : List (Bool × RE) :=
  [ (true, rcat [rstr "\"email\":", ws0, RE.lit '"', RE.grp 1 reEmailCore, RE.lit '"']),
    (true, rcat [rstr "\"contactPoint\":", rstar (.cls true [ic '}']),
      rstr "\"email\":", ws0, RE.lit '"', RE.grp 1 reEmailCore, RE.lit '"']),
    (true, rcat [rstr "itemprop", ws0, RE.lit '=', ws0, clsQuote, rstr "email",
      clsQuote, rstar (.cls true [ic '>']), rstr "content", ws0, RE.lit '=', ws0,
      clsQuote, RE.grp 1 reEmailCore, clsQuote]) ]

/-- Inner `/"?([A-Za-z0-9._%+-]+@[A-Za-z0-9.-]+\.[A-Z|a-z]{2,})"?/` (no flags). -/
def reSchemaEmailInner : RE :=
  rcat [ropt (RE.lit '"'), RE.grp 1 reEmailCore, ropt (RE.lit '"')]

/-- The text-pattern pass of `extractEmails`: every match of every pattern,
de-obfuscated, structurally validated and lower-cased, in `Set.add` order. -/
def emailAddsFromText (text : Str) : List Str :=
  (emailPatterns.map (fun p => (jsMatch p.1 p.2 text).filterMap (fun m =>
    let clean := cleanObfuscatedEmail m
    if !clean.isEmpty && isValidEmail clean then some (lowerStr clean) else none))).flatten

/-- Extract a validated, lower-cased capture-1 email from one HTML match. -/
def emailFromHtmlMatch (innerCi : Bool) (inner : RE) (m : Str) : Option Str :=
  match jsExec innerCi inner m with
  | some (_, caps) =>
    match capGet caps 1 with
    | some e => if isValidEmail e then some (lowerStr e) else none
    | none => none
  | none => none

/-- The HTML pass of `extractEmails`, in source order: `mailto:` link URLs,
the `mailtoRegex` scan, the JS-variable patterns, the schema patterns. -/
def emailAddsFromHtml (html : Str) : List Str :=
  (emailsFromUrls (extractUrlsFromHtml html)).map lowerStr
  ++ (jsMatch true reMailtoHref html).filterMap (fun m =>
      match jsExec true reMailtoInner m with
      | some (_, caps) =>
        match capGet caps 1 with
        | some e =>
          let e := jsTrim e
          if isValidEmail e then some (lowerStr e) else none
        | none => none
      | none => none)
  ++ (jsEmailPatternList.map (fun p =>
      (jsMatch p.1 p.2 html).filterMap (emailFromHtmlMatch false reJsEmailInner))).flatten
  ++ (schemaEmailPatternList.map (fun p =>
      (jsMatch p.1 p.2 html).filterMap (emailFromHtmlMatch false reSchemaEmailInner))).flatten

/-- `extractEmails(text, html)` (WebScraper.js): collect candidates into a
`Set`, filter by `isValidEmail`, `!isEmailFalsePositive`,
`isValidEmailDomain`, sort lexicographically, dedup, return the top 15. -/
def extractEmails (text html : Str) : List Str :=
  let adds := emailAddsFromText text ++ (if html.isEmpty then [] else emailAddsFromHtml html)
  let uniq := keepFirsts adds
  let filtered :=
    ((uniq.filter isValidEmail).filter (fun e => !isEmailFalsePositive e)).filter
      isValidEmailDomain
  (keepFirsts (sortB lexLe filtered)).take 15

/-! ## WebScraper.js — phone extraction -/

/-- `[0-9]` as used in the phone patterns. -/
def d09 : RE := .cls false [ir '0' '9']

/-- `( )?` — an optional literal space. -/
def optSp : RE := ropt (RE.lit ' ')

/-- The thirteen `PHONE_REGEX_STRINGS`, in source order (the US-format entry
really appears twice, and `(-|.)` contains an unescaped dot that matches any
character). -/
def phoneCores : List RE :=
  [ rrep 6 15 d09,
    rcat [ropt (.seq (rrep 1 4 d09) optSp), RE.lit '(', rrep 2 4 d09, RE.lit ')',
      optSp, rrep 2 4 d09, ropt (.seq optSp (ralts [RE.lit '-', RE.anyc])), optSp,
      rrep 2 6 d09],
    rcat [RE.lit '(', rexact 2 d09, RE.lit ')', optSp, rrep 4 5 d09, RE.lit '-',
      rexact 4 d09],
    rcat [ropt (.seq (rrep 1 4 d09) optSp), RE.lit '(', rrep 2 4 d09, RE.lit ')',
      optSp, rrep 2 4 d09, ropt (.seq optSp (ralts [RE.lit '-', RE.anyc])), optSp,
      rrep 2 6 d09],
    rcat [rrep 2 4 d09, RE.lit '-', rrep 2 4 d09, RE.lit '-', rrep 2 4 d09,
      RE.lit '-', rrep 2 6 d09],
    rcat [rrep 2 4 d09, RE.lit '-', rrep 2 4 d09, RE.lit '-', rrep 2 6 d09],
    rcat [rrep 2 4 d09, RE.lit '-', rrep 2 6 d09],
    rcat [rrep 2 4 d09, RE.lit '.', rrep 2 4 d09, RE.lit '.', rrep 2 4 d09,
      RE.lit '.', rrep 2 6 d09],
    rcat [rrep 2 4 d09, RE.lit '.', rrep 2 4 d09, RE.lit '.', rrep 2 6 d09],
    rcat [rrep 2 4 d09, RE.lit '.', rrep 2 6 d09],
    rcat [rrep 2 4 d09, RE.lit ' ', rrep 2 4 d09, RE.lit ' ', rrep 2 4 d09,
      RE.lit ' ', rrep 2 6 d09],
    rcat [rrep 2 4 d09, RE.lit ' ', rrep 2 4 d09, RE.lit ' ', rrep 2 6 d09],
    rcat [rrep 2 4 d09, RE.lit ' ', rrep 3 8 d09] ]

/-- `phonePatterns`: each core prefixed with `(00|\+)?` (flags `ig`). -/
def phonePatterns : List RE :=
  phoneCores.map (fun core => .seq (ropt (ralts [rstr "00", RE.lit '+'])) core)

/-- `cleanPhoneNumber(phone)`: `phone.replace(/[^\d+]/g, '')`. -/
def cleanPhoneNumber (phone : Str) : Str :=
  phone.filter (fun c => jsDigit c || c = '+')

/-- Shape of `^[0-9]{4}-[0-9]{2}-[0-9]{2}$` (direct translation). -/
def isDateDashShape (s : Str) : Bool :=
  s.length = 10 && (s.take 4).all jsDigit && s.get? 4 = some '-' &&
  (substr s 5 7).all jsDigit && s.get? 7 = some '-' && (substr s 8 10).all jsDigit

/-- Shape of `^[0-9]{4}/[0-9]{2}/[0-9]{2}$` (direct translation). -/
def isDateSlashYShape (s : Str) : Bool :=
  s.length = 10 && (s.take 4).all jsDigit && s.get? 4 = some '/' &&
  (substr s 5 7).all jsDigit && s.get? 7 = some '/' && (substr s 8 10).all jsDigit

/-- Shape of `^[0-9]{2}/[0-9]{2}/[0-9]{4}$` (direct translation). -/
def isDateSlashDShape (s : Str) : Bool :=
  s.length = 10 && (s.take 2).all jsDigit && s.get? 2 = some '/' &&
  (substr s 3 5).all jsDigit && s.get? 5 = some '/' && (substr s 6 10).all jsDigit

/-- Shape of `^[0-9]{8,}$`: eight or more characters, all digits
(direct translation). -/
def isBareDigits8 (s : Str) : Bool := 8 ≤ s.length && s.all jsDigit

/-- `isValidPhoneNumber(cleaned)` (WebScraper.js).  The `SKIP_PHONE_REGEXS`
alternation — each branch anchored with `^…$` — is translated directly into
the four shape predicates above. -/
def isValidPhoneNumber (cleaned : Str) : Bool :=
  if (cleaned.filter jsDigit).length < 7 then false
  else if cleaned.length < 7 || 15 < cleaned.length then false
  else if isDateDashShape cleaned || isDateSlashYShape cleaned ||
    isDateSlashDShape cleaned || isBareDigits8 cleaned then false
  else if strStarts cleaned (str "+") then
    decide (8 ≤ cleaned.length) && decide (cleaned.length ≤ 15)
  else if cleaned.length = 10 || (cleaned.length = 11 && strStarts cleaned (str "1")) then
    let number := if strStarts cleaned (str "1") then cleaned.drop 1 else cleaned
    if number.length = 10 then
      let areaCode := substr number 0 3
      let exchange := substr number 3 6
      if strStarts areaCode (str "0") || strStarts areaCode (str "1") then false
      else if strStarts exchange (str "0") || strStarts exchange (str "1") then false
      else true
    else decide (7 ≤ cleaned.length) && decide (cleaned.length ≤ 15)
  else decide (7 ≤ cleaned.length) && decide (cleaned.length ≤ 15)

/-- The `falsePositives` digit-string list of `isPhoneFalsePositive`. -/
def phoneFalsePositiveList : List Str :=
  [str "1234567890", str "0000000000", str "1111111111", str "2222222222",
   str "3333333333", str "4444444444", str "5555555555", str "6666666666",
   str "7777777777", str "8888888888", str "9999999999",
   str "1234567800", str "1234567890", str "0987654321",
   str "5551234567", str "8005551234", str "5551212000", str "5552345678",
   str "5551234", str "5559876", str "5551212",
   str "1234567", str "9876543", str "5555555", str "1111111",
   str "0123456789", str "1230984567"]

/-- Exactly `n` characters, all digits (`^\d{n}$`). -/
def digitsExact (n : Nat) (s : Str) : Bool := s.length = n && s.all jsDigit

/-- The sequential three-digit openings of `isPhoneFalsePositive`. -/
def sequentialStarts : List Str :=
  [str "012", str "123", str "234", str "345", str "456", str "567", str "678",
   str "789", str "890", str "987", str "876", str "765", str "654", str "543",
   str "432", str "321", str "210"]

/-- `/(\d)\1{6,}/` — seven or more copies of one digit in a row. -/
def reDigitRun7 : RE := .seq (.grp 1 rdig) (.rep 6 none true (.bref 1))

/-- The `placeholderWords` list of `isPhoneFalsePositive`. -/
def phonePlaceholderWords : List Str :=
  [str "xxx", str "yyy", str "zzz", str "test", str "phone", str "number",
   str "call", str "dial", str "contact", str "placeholder", str "sample"]

/-- `invalidAreaCodes` (first, 10-digit-only block). -/
def invalidAreaCodes1 : List Str := [str "000", str "001", str "111", str "911"]

/-- `invalidAreaCodes` (second, enhanced block). -/
def invalidAreaCodes2 : List Str :=
  [str "000", str "001", str "111", str "211", str "311", str "411", str "511",
   str "611", str "711", str "811", str "911"]

/-- `/ext\.?\s?\d{1,5}/i`. -/
def reExtNum : RE := rcat [rstr "ext", ropt (RE.lit '.'), ropt sSp, rrep 1 5 rdig]

/-- `isPhoneFalsePositive(phone)` (WebScraper.js).  The four `datePatterns`
(`^\d{4}\d{2}\d{2}$`, `^\d{2}\d{2}\d{4}$`, `^\d{4}$`, `^\d{8}$`) are
translated directly via `digitsExact`, and the sequential-opening pattern
`/^(012|123|…|210)/` via `sequentialStarts`. -/
def isPhoneFalsePositive (phone : Str) : Bool :=
  if phone.isEmpty then true
  else
    let cleaned := phone.filter jsDigit
    if phoneFalsePositiveList.contains cleaned then true
    else if digitsExact 8 cleaned || digitsExact 8 cleaned || digitsExact 4 cleaned ||
      digitsExact 8 cleaned then true
    else if sequentialStarts.any (fun p => strStarts cleaned p) then true
    else if rtest false reDigitRun7 cleaned then true
    else if cleaned.length = 10 &&
      (invalidAreaCodes1.contains (substr cleaned 0 3) ||
       (substr cleaned 0 3 = substr cleaned 3 6 && substr cleaned 3 6 = substr cleaned 6 10) ||
       (substr cleaned 0 3 = str "555" && substr cleaned 3 6 = str "555")) then true
    else if phonePlaceholderWords.any (fun w => strIncludes (lowerStr phone) w) then true
    else if (cleaned.length = 10 || (cleaned.length = 11 && strStarts cleaned (str "1"))) &&
      (let number := if strStarts cleaned (str "1") then cleaned.drop 1 else cleaned
       number.length = 10 &&
       (invalidAreaCodes2.contains (substr number 0 3) ||
        strStarts (substr number 0 3) (str "0") || strStarts (substr number 0 3) (str "1") ||
        strEnds (substr number 0 3) (str "11") ||
        strStarts (substr number 3 6) (str "0") || strStarts (substr number 3 6) (str "1") ||
        (substr number 3 6 = str "555" && substr number 6 8 = str "01"))) then true
    else if cleaned.length < 7 || 15 < cleaned.length then true
    else if strIncludes (lowerStr phone) (str "extension") && !rtest true reExtNum phone
      then true
    else false

/-- `formatPhoneNumber(phone)` (WebScraper.js). -/
def formatPhoneNumber (phone : Str) : Str :=
  let cleaned := cleanPhoneNumber phone
  if cleaned.length = 10 then
    str "(" ++ substr cleaned 0 3 ++ str ") " ++ substr cleaned 3 6 ++ str "-" ++
      substrFrom cleaned 6
  else if cleaned.length = 11 && strStarts cleaned (str "1") then
    let number := substrFrom cleaned 1
    str "+1 (" ++ substr number 0 3 ++ str ") " ++ substr number 3 6 ++ str "-" ++
      substrFrom number 6
  else jsTrim phone

/-- `/^(tel|phone|telephone|callto):(\/)?(\/)?/i` of `phonesFromUrls`. -/
def rePhoneUrlStart : RE :=
  rcat [RE.bos, ralts [rstr "tel", rstr "phone", rstr "telephone", rstr "callto"],
    RE.lit ':', ropt (RE.lit '/'), ropt (RE.lit '/')]

/-- `phonesFromUrls(urls)` (Crawlee-style). -/
def phonesFromUrls (urls : List Str) : List Str :=
  urls.filterMap (fun url =>
    if url.isEmpty then none
    else if !rtest true rePhoneUrlStart url then none
    else
      let phone := jsTrim (jsReplaceFirst true rePhoneUrlStart [] url)
      if isValidPhoneNumber (cleanPhoneNumber phone) then some phone else none)

/-- `[\d\s\-\(\)\.ext]` — the `tel:` link character class (it really contains
the letters `e`, `x`, `t`). -/
def clsTel : RE :=
  .cls false [CItem.dC, CItem.sC, ic '-', ic '(', ic ')', ic '.', ic 'e', ic 'x',
    ic 't']

/-- `([+]?[\d\s\-\(\)\.ext]+)` — shared by the `tel:` patterns. -/
def reTelBody : RE := RE.grp 1 (.seq (ropt (RE.lit '+')) (rplus clsTel))

/-- The four `telPatterns`, in source order (`gi`). -/
def telPatternList : List RE :=
  [ .seq (rstr "tel:") reTelBody,
    rcat [rstr "href", ws0, RE.lit '=', ws0, clsQuote, ws0, rstr "tel:",
      RE.grp 1 (rstar clsNotQuote), clsQuote, RE.lit '>'],
    rcat [rstr "\"telephone\":", ws0, RE.lit '"',
      RE.grp 1 (rplus (.cls true [ic '"'])), RE.lit '"'],
    rcat [rstr "itemprop", ws0, RE.lit '=', ws0, clsQuote, rstr "telephone",
      clsQuote, rstar (.cls true [ic '>']), rstr "content", ws0, RE.lit '=', ws0,
      clsQuote, RE.grp 1 (rplus clsNotQuote), clsQuote] ]

/-- Inner `/([+]?[\d\s\-\(\)\.ext]+)/` (no flags). -/
def reTelInner : RE := reTelBody

/-- The four phone `schemaPatterns`, in source order (`gi`). -/
def schemaPhonePatternList : List RE :=
  [ rcat [rstr "\"telephone\":", ws0, RE.lit '"',
      RE.grp 1 (rplus (.cls true [ic '"'])), RE.lit '"'],
    rcat [rstr "\"phone\":", ws0, RE.lit '"',
      RE.grp 1 (rplus (.cls true [ic '"'])), RE.lit '"'],
    rcat [rstr "itemprop", ws0, RE.lit '=', ws0, clsQuote, rstr "telephone",
      clsQuote, rstar (.cls true [ic '>']), rstr "content", ws0, RE.lit '=', ws0,
      clsQuote, RE.grp 1 (rplus clsNotQuote), clsQuote],
    rcat [rstr "data-phone", ws0, RE.lit '=', ws0, clsQuote,
      RE.grp 1 (rplus clsNotQuote), clsQuote] ]

/-- Inner `/"([^"]+)"/` applied to each schema match. -/
def reQuoted : RE :=
  rcat [RE.lit '"', RE.grp 1 (rplus (.cls true [ic '"'])), RE.lit '"']

/-- The text-pattern pass of `extractPhoneNumbers`, in `Set.add` order. -/
def phoneAddsFromText (text : Str) : List Str :=
  (phonePatterns.map (fun p => (jsMatch true p text).filterMap (fun phone =>
    if isValidPhoneNumber (cleanPhoneNumber phone) && !isPhoneFalsePositive phone
    then some (jsTrim phone) else none))).flatten

/-- One `telPatterns`/`schemaPatterns` match processed through its inner
regex, trim and the two validity guards. -/
def phoneFromHtmlMatch (inner : RE) (m : Str) : Option Str :=
  match jsExec false inner m with
  | some (_, caps) =>
    match capGet caps 1 with
    | some p =>
      let phone := jsTrim p
      if isValidPhoneNumber (cleanPhoneNumber phone) && !isPhoneFalsePositive phone
      then some phone else none
    | none => none
  | none => none

/-- The HTML pass of `extractPhoneNumbers`, in source order. -/
def phoneAddsFromHtml (html : Str) : List Str :=
  (phonesFromUrls (extractUrlsFromHtml html))
  ++ (telPatternList.map (fun p =>
      (jsMatch true p html).filterMap (phoneFromHtmlMatch reTelInner))).flatten
  ++ (schemaPhonePatternList.map (fun p =>
      (jsMatch true p html).filterMap (phoneFromHtmlMatch reQuoted))).flatten

/-- `extractPhoneNumbers(text, html)` (WebScraper.js).  The
`.filter(phone => phone !== null)` step of the source is vacuous
(`formatPhoneNumber` always returns a string) and is therefore not modelled. -/
def extractPhoneNumbers (text html : Str) : List Str :=
  let adds := phoneAddsFromText text ++ (if html.isEmpty then [] else phoneAddsFromHtml html)
  let uniq := keepFirsts adds
  let formatted := (uniq.filter (fun p => !isPhoneFalsePositive p)).map formatPhoneNumber
  (keepFirsts (sortB lexLe formatted)).take 10

/-! ## WebScraper.js — name extraction -/

/-- `[A-Z]`. -/
def clsUC : RE := .cls false [ir 'A' 'Z']

/-- `[a-z]`. -/
def clsLC : RE := .cls false [ir 'a' 'z']

/-- `(?:\s+[A-Z]\.?\s*)?` — optional middle initial. -/
def optMidInit : RE := ropt (rcat [ws1, clsUC, ropt (RE.lit '.'), ws0])

/-- `([A-Z][a-z]{1,15}(?:\s+[A-Z]\.?\s*)?[A-Z][a-z]{1,20})` — the name body
shared by several contextual patterns. -/
def nameBody : RE :=
  RE.grp 1 (rcat [clsUC, rrep 1 15 clsLC, optMidInit, clsUC, rrep 1 20 clsLC])

/-- `namePatterns[0]` — professional titles (flags `gi`). -/
def reNameTitle : RE :=
  rcat [ralts [.seq (rstr "Dr") (ropt (RE.lit '.')), rstr "Doctor",
      .seq (rstr "Prof") (ropt (RE.lit '.')), rstr "Professor",
      .seq (rstr "Mr") (ropt (RE.lit '.')), .seq (rstr "Ms") (ropt (RE.lit '.')),
      .seq (rstr "Mrs") (ropt (RE.lit '.')), rstr "Miss", rstr "CEO",
      rstr "President", rstr "Director", rstr "Manager", rstr "VP",
      .seq (rstr "Vice") (.seq ws1 (rstr "President"))],
    ws1,
    RE.grp 1 (rcat [clsUC, rplus clsLC, ropt (RE.lit apos), optMidInit,
      clsUC, rplus clsLC, ropt (RE.lit apos),
      ropt (rcat [ws1, clsUC, rplus clsLC, ropt (RE.lit apos)])])]

/-- `namePatterns[1]` — contact verbs (flags `gi`). -/
def reNameContact : RE :=
  rcat [ralts [rstr "contact",
      .seq (rstr "reach") (ropt (rcat [ws1, rstr "out", ws1, rstr "to"])),
      .seq (rstr "speak") (.seq ws1 (rstr "with")),
      .seq (rstr "talk") (.seq ws1 (rstr "to")), rstr "meet",
      .seq (rstr "ask") (.seq ws1 (rstr "for")), rstr "call", rstr "email"],
    ws1, ropt (rcat [rstr "us", ws1, rstr "at", ws1]), nameBody]

/-- `namePatterns[2]` — about/team sections (flags `gi`). -/
def reNameAbout : RE :=
  rcat [ralts [rstr "about", rstr "team", rstr "staff", rstr "meet", rstr "our",
      rstr "founder", rstr "co-founder", rstr "ceo", rstr "president", rstr "owner",
      rstr "director", rstr "manager", rstr "lead", rstr "head", rstr "senior",
      rstr "principal", rstr "chief"],
    rstar (.cls false [CItem.sC, ic ':']),
    RE.grp 1 (rcat [clsUC, rrep 1 15 clsLC, ws1, clsUC, rrep 1 20 clsLC])]

/-- `namePatterns[3]` — bylines (flags `gi`). -/
def reNameByline : RE :=
  rcat [ralts [rstr "by", rstr "author", rcat [rstr "written", ws1, rstr "by"],
      rcat [rstr "created", ws1, rstr "by"], rcat [rstr "developed", ws1, rstr "by"]],
    RE.lit ':', ws0, nameBody]

/-- `namePatterns[4]` — job titles after a name (flags `gi`). -/
def reNameJob : RE :=
  rcat [nameBody, ropt (RE.lit ','), ws1,
    ropt (ralts [rcat [rstr "is", ws1, ralts [rstr "our", rstr "the", rstr "a"]],
      rcat [rstr "work", ropt (RE.lit 's'), ws1, rstr "as"],
      rcat [rstr "serve", ropt (RE.lit 's'), ws1, rstr "as"]]),
    ws0,
    ralts [rstr "CEO", rstr "President", rstr "Director", rstr "Manager",
      rstr "Engineer", rstr "Developer", rstr "Designer", rstr "Consultant",
      rstr "Specialist", rstr "Coordinator", rstr "Analyst", rstr "Associate"]]

/-- `namePatterns[5]` — self introductions (flags `gi`). -/
def reNameIntro : RE :=
  rcat [ralts [rcat [rstr "hello", ropt (RE.lit ','), ws1, RE.lit 'i',
      ropt (RE.lit apos), RE.lit 'm'],
      rcat [rstr "hi", ropt (RE.lit ','), ws1, RE.lit 'i', ropt (RE.lit apos),
        RE.lit 'm'],
      rcat [rstr "my", ws1, rstr "name", ws1, rstr "is"],
      rcat [RE.lit 'i', ropt (RE.lit apos), RE.lit 'm'],
      rcat [rstr "this", ws1, rstr "is"]],
    ws1, nameBody]

/-- `namePatterns[6]` — quote attributions (flags `gi`; the bracket
expressions `["""]` are character classes containing only `"`). -/
def reNameQuote : RE :=
  rcat [.cls false [ic '"'], .rep 0 none false RE.anyc, .cls false [ic '"'],
    ropt (RE.lit ','), ws0,
    ralts [rstr "said", rstr "says", rcat [rstr "according", ws1, rstr "to"],
      .seq (rstr "state") (ropt (RE.lit 's'))],
    ws1, nameBody]

/-- `namePatterns[7]` — business-card style (flags `gi`). -/
def reNameCard : RE :=
  rcat [nameBody, ws0, .cls false [ic ',', ic '\n'], ws0,
    ralts [rstr "CEO", rstr "President", rstr "Director", rstr "Manager",
      rstr "Partner", rstr "Owner", rstr "Founder"]]

/-- `namePatterns[8]` — email signatures (flags `gi`). -/
def reNameSig : RE :=
  rcat [ralts [rcat [rstr "best", ws1, rstr "regard", ropt (RE.lit 's')],
      rstr "sincerely", rcat [rstr "thank", ws1, rstr "you"]],
    ropt (RE.lit ','), ws0, ropt (RE.lit '\n'), ws0, nameBody]

/-- `namePatterns[9]` — three-part names (flags `g`). -/
def reNameThree : RE :=
  rcat [RE.wb,
    RE.grp 1 (rcat [clsUC, rrep 2 12 clsLC, ws1, clsUC, rrep 1 12 clsLC, ws1,
      clsUC, rrep 2 15 clsLC]),
    RE.wb]

/-- `namePatterns[10]` — standard 2–3 part names (flags `g`). -/
def reNameStd : RE :=
  rcat [RE.wb,
    RE.grp 1 (rcat [clsUC, rrep 2 15 clsLC, ws1,
      ropt (rcat [clsUC, ropt (RE.lit '.'), ws1]), clsUC, rrep 2 20 clsLC,
      ropt (rcat [ws1, clsUC, rrep 2 20 clsLC])]),
    RE.wb]

/-- The `namePatterns` array with the `i` flag of each entry. -/
def namePatterns : List (Bool × RE) :=
  [(true, reNameTitle), (true, reNameContact), (true, reNameAbout),
   (true, reNameByline), (true, reNameJob), (true, reNameIntro),
   (true, reNameQuote), (true, reNameCard), (true, reNameSig),
   (false, reNameThree), (false, reNameStd)]

/-- The fallback pattern
`/([A-Z][a-z]{1,15}(?:\s+[A-Z]\.?\s*)?(?:\s+[A-Z][a-z]{1,20})+)/`. -/
def reNameFallback : RE :=
  RE.grp 1 (rcat [clsUC, rrep 1 15 clsLC, optMidInit,
    rplus (rcat [ws1, clsUC, rrep 1 20 clsLC])])

/-- `/([A-Z])\.\s*([A-Z])/g` — middle-initial spacing fix. -/
def reInitialFix : RE :=
  rcat [RE.grp 1 clsUC, RE.lit '.', ws0, RE.grp 2 clsUC]

/-- `/,.*$/` — trailing job titles/credentials (first match only). -/
def reTrailingComma : RE := rcat [RE.lit ',', rstar RE.anyc, RE.eos]

/-- The per-match name cleanup of `extractNames`:
trim, whitespace normalisation, initial spacing, trailing-comma strip. -/
def nameCleanup (nameMatch : Str) : Str :=
  jsReplaceFirst false reTrailingComma [] <|
  jsReplaceAll false reInitialFix
    [TPart.ref 1, TPart.lit (str ". "), TPart.ref 2] <|
  jsReplaceAll false ws1 [TPart.lit (str " ")] <|
  jsTrim nameMatch

/-- ASCII letter. -/
def isLetterC (c : Char) : Bool := ('A' ≤ c && c ≤ 'Z') || ('a' ≤ c && c ≤ 'z')

/-- Upper-case ASCII letter (`/^[A-Z]/` on the head). -/
def headIsUpper (s : Str) : Bool :=
  match s.head? with
  | some c => 'A' ≤ c && c ≤ 'Z'
  | none => false

/-- `isValidName(name)` (WebScraper.js).  `/^[A-Za-z\s.'-]+$/` and `/^[A-Z]/`
are translated directly. -/
def isValidName (name : Str) : Bool :=
  let trimmed := jsTrim name
  if trimmed.length < 3 || 50 < trimmed.length then false
  else
    let parts := wordsBy trimmed
    if parts.length < 2 then false
    else if parts.any (fun p => p.length < 2 || 20 < p.length) then false
    else if !trimmed.all (fun c =>
      isLetterC c || jsSpace c || c = '.' || c = apos || c = '-') then false
    else if !headIsUpper trimmed then false
    else !(parts.filter (fun p => 1 < p.length)).any (fun w => !headIsUpper w)

/-- `/([a-z])([A-Z])/g` — camel-case split. -/
def reCamelSplit : RE := .seq (RE.grp 1 clsLC) (RE.grp 2 clsUC)

/-- `/\b([A-Z])\.?\s*([A-Z])\b/g` — initials fix of `normalizeName`. -/
def reInitPair : RE :=
  rcat [RE.wb, RE.grp 1 clsUC, ropt (RE.lit '.'), ws0, RE.grp 2 clsUC, RE.wb]

/-- `/\b([A-Z][a-z]+)\s+([A-Z])\b/g` — add a period to a single letter. -/
def reWordInit : RE :=
  rcat [RE.wb, RE.grp 1 (.seq clsUC (rplus clsLC)), ws1, RE.grp 2 clsUC, RE.wb]

/-- `word.charAt(0).toUpperCase() + word.slice(1).toLowerCase()`. -/
def capitalizeWord (w : Str) : Str :=
  match w with
  | [] => []
  | c :: rest => upC c :: lowerStr rest

/-- `normalizeName(name)` (WebScraper.js). -/
def normalizeName (name : Str) : Str :=
  let s := jsTrim name
  let s := jsReplaceAll false ws1 [TPart.lit (str " ")] s
  let s := jsReplaceAll false reCamelSplit [TPart.ref 1, TPart.lit (str " "), TPart.ref 2] s
  let s := jsReplaceAll false reInitPair [TPart.ref 1, TPart.lit (str ". "), TPart.ref 2] s
  let s := jsReplaceAll false reWordInit
    [TPart.ref 1, TPart.lit (str " "), TPart.ref 2, TPart.lit (str ".")] s
  List.intercalate (str " ") ((splitOnChar ' ' s).map capitalizeWord)

/-- The `falsePositives` full-name list of `isNameFalsePositive`. -/
def nameFalsePositiveList : List Str :=
  [str "john doe", str "jane doe", str "john smith", str "jane smith",
   str "lorem ipsum", str "test user", str "sample name", str "your name",
   str "first last", str "fname lname", str "firstname lastname",
   str "user name", str "full name", str "company name", str "business name",
   str "admin user", str "site admin", str "web admin", str "administrator",
   str "default user", str "guest user", str "anonymous user",
   str "example name", str "sample person", str "test person",
   str "dummy name", str "fake name", str "placeholder name"]

/-- `placeholderWords` of `isNameFalsePositive`. -/
def namePlaceholderWords : List Str :=
  [str "lorem", str "ipsum", str "example", str "sample", str "test", str "dummy",
   str "fake", str "placeholder", str "default"]

/-- `businessTerms` of `isNameFalsePositive`. -/
def nameBusinessTerms : List Str :=
  [str "company", str "corporation", str "business", str "enterprise",
   str "organization", str "department", str "division", str "office", str "branch",
   str "headquarters", str "customer service", str "tech support", str "sales team",
   str "marketing team", str "help desk", str "information desk", str "reception",
   str "front desk", str "about us", str "contact us", str "home page",
   str "main page", str "news events", str "domain names", str "abuse information",
   str "protocols numbers", str "root zone", str "time zones", str "root servers",
   str "special use"]

/-- `jobTitles` of `isNameFalsePositive`. -/
def nameJobTitles : List Str :=
  [str "customer service", str "tech support", str "sales representative",
   str "marketing manager", str "account manager", str "project manager",
   str "general manager", str "operations manager", str "office manager"]

/-- `genericNames` of `isNameFalsePositive`. -/
def nameGenericNames : List Str :=
  [str "contact person", str "sales person", str "support person",
   str "your contact", str "our representative", str "team member",
   str "staff member", str "company representative"]

/-- `techTerms` of `isNameFalsePositive`. -/
def nameTechTerms : List Str :=
  [str "api key", str "user id", str "client id", str "session id", str "auth token"]

/-- The seven `suspiciousPatterns` of `isNameFalsePositive` (each with its
`i` flag; they are applied to the original-case name). -/
def nameSuspiciousPatterns : List (Bool × RE) :=
  [ (true, rcat [RE.bos, ralts [rstr "mr", rstr "mrs", rstr "ms", rstr "dr",
      rstr "prof"], ropt (RE.lit '.'), ws1,
      ralts [rstr "example", rstr "sample", rstr "test"]]),
    (true, rcat [RE.bos, ralts [rstr "example", rstr "sample", rstr "test"], ws1]),
    (true, rcat [RE.bos, rrep 1 2 (.cls false [ir 'a' 'z']), ws1,
      rrep 1 2 (.cls false [ir 'a' 'z']), RE.eos]),
    (true, rcat [RE.bos, RE.grp 1 (rplus RE.anyc), ws1, RE.bref 1, RE.eos]),
    (false, rdig),
    (false, .cls false [ic '!', ic '@', ic '#', ic '$', ic '%', ic '^', ic '&',
      ic '*', ic '(', ic ')', ic ',', ic '.', ic '?', ic '"', ic ':', ic '{',
      ic '}', ic '|', ic '<', ic '>']),
    (false, rcat [RE.bos, rplus clsUC, ws1, rplus clsUC, RE.eos]) ]

/-- `isNameFalsePositive(name)` (WebScraper.js). -/
def isNameFalsePositive (name : Str) : Bool :=
  if name.isEmpty then true
  else
    let lowerName := jsTrim (lowerStr name)
    if nameFalsePositiveList.contains lowerName then true
    else if namePlaceholderWords.any (fun w => strIncludes lowerName w) then true
    else if nameBusinessTerms.any (fun t => strIncludes lowerName t) then true
    else if nameJobTitles.any (fun t => strIncludes lowerName t) then true
    else if nameGenericNames.any (fun t => strIncludes lowerName t) then true
    else if nameTechTerms.any (fun t => strIncludes lowerName t) then true
    else nameSuspiciousPatterns.any (fun p => rtest p.1 p.2 name)

/-- `/^[A-Z][a-z]+$/` on one name part (direct translation). -/
def partCapShape (p : Str) : Bool :=
  match p with
  | c :: rest => ('A' ≤ c && c ≤ 'Z') && !rest.isEmpty &&
      rest.all (fun d => 'a' ≤ d && d ≤ 'z')
  | [] => false

/-- `/^[A-Z]\.$/` on one name part (direct translation). -/
def initialShape (p : Str) : Bool :=
  match p with
  | [c, d] => ('A' ≤ c && c ≤ 'Z') && d = '.'
  | _ => false

/-- `Math.min` on two rationals, computably. -/
def jsMin (a b : ℚ) : ℚ := if a ≤ b then a else b

/-- `calculateNameConfidence(name)` (WebScraper.js, the effective 0–1
version; an earlier integer-scored method of the same name is shadowed by
this one in the class body and is therefore dead code). -/
def calculateNameConfidence (name : Str) : ℚ :=
  let parts := wordsBy (jsTrim name)
  let score : ℚ := 0.5
  let score := if 2 ≤ parts.length then score + 0.2 else score
  let score := if 3 ≤ parts.length then score + 0.1 else score
  let score := if 6 < name.length && name.length < 40 then score + 0.1 else score
  let score := if parts.all (fun p => partCapShape p || initialShape p)
    then score + 0.2 else score
  jsMin score 1.0

/-- `assessNameCompleteness(name)` (WebScraper.js). -/
def assessNameCompleteness (name : Str) : ℚ :=
  let parts := wordsBy (jsTrim name)
  if 3 ≤ parts.length then 1.0
  else if parts.length = 2 then 0.8
  else 0.3

/-- `[^}]*`. -/
def notCloseBrace0 : RE := rstar (.cls true [ic '}'])

/-- `"name":\s*"` opener used by several structured-data patterns. -/
def reNameKey : RE := rcat [rstr "\"name\":", ws0, RE.lit '"']

/-- The three Schema.org `Person` patterns of
`extractNamesFromStructuredData` (flags `gi`). -/
def structuredDataPatterns : List RE :=
  [ rcat [rstr "\"@type\":", ws0, rstr "\"Person\"", notCloseBrace0, reNameKey,
      RE.grp 1 (rplus (.cls true [ic '"'])), RE.lit '"'],
    rcat [rstr "\"@type\":", ws0, rstr "\"Person\"", notCloseBrace0,
      rstr "\"givenName\":", ws0, RE.lit '"', RE.grp 1 (rplus (.cls true [ic '"'])),
      RE.lit '"', notCloseBrace0, rstr "\"familyName\":", ws0, RE.lit '"',
      RE.grp 2 (rplus (.cls true [ic '"'])), RE.lit '"'],
    rcat [reNameKey, RE.grp 1 (rcat [clsUC, rrep 1 15 clsLC, ws1, clsUC,
      rrep 1 20 clsLC]), RE.lit '"'] ]

/-- Inner `/"([A-Z][^"]*[a-z])"/g` of `extractNamesFromStructuredData`. -/
def reQuotedName : RE :=
  rcat [RE.lit '"', RE.grp 1 (rcat [clsUC, rstar (.cls true [ic '"']), clsLC]),
    RE.lit '"']

/-- `extractNamesFromStructuredData(html)`: the names it adds, in order. -/
def namesFromStructuredData (html : Str) : List Str :=
  (structuredDataPatterns.map (fun p =>
    ((jsMatch true p html).map (fun m =>
      (jsMatch false reQuotedName m).filterMap (fun nm =>
        let name := jsTrim (nm.filter (fun c => c ≠ '"'))
        if isValidName name then some name else none))).flatten)).flatten

/-- The five meta-tag patterns of `extractNamesFromMetaTags` (flags `gi`). -/
def metaTagPatterns : List RE :=
  [ rcat [rstr "<meta", rplus (.cls true [ic '>']), rstr "name=\"author\"",
      rplus (.cls true [ic '>']), rstr "content=\"",
      RE.grp 1 (rplus (.cls true [ic '"'])), RE.lit '"'],
    rcat [rstr "<meta", rplus (.cls true [ic '>']), rstr "name=\"creator\"",
      rplus (.cls true [ic '>']), rstr "content=\"",
      RE.grp 1 (rplus (.cls true [ic '"'])), RE.lit '"'],
    rcat [rstr "<meta", rplus (.cls true [ic '>']),
      rstr "property=\"article:author\"", rplus (.cls true [ic '>']),
      rstr "content=\"", RE.grp 1 (rplus (.cls true [ic '"'])), RE.lit '"'],
    rcat [rstr "<meta", rplus (.cls true [ic '>']),
      rstr "property=\"profile:first_name\"", rplus (.cls true [ic '>']),
      rstr "content=\"", RE.grp 1 (rplus (.cls true [ic '"'])), RE.lit '"',
      rstar (.cls true [ic '>']), RE.lit '>'],
    rcat [rstr "<meta", rplus (.cls true [ic '>']),
      rstr "property=\"profile:last_name\"", rplus (.cls true [ic '>']),
      rstr "content=\"", RE.grp 1 (rplus (.cls true [ic '"'])), RE.lit '"',
      rstar (.cls true [ic '>']), RE.lit '>'] ]

/-- Inner `/content="([^"]+)"/` (no flags). -/
def reContentAttr : RE :=
  rcat [rstr "content=\"", RE.grp 1 (rplus (.cls true [ic '"'])), RE.lit '"']

/-- `extractNamesFromMetaTags(html)`. -/
def namesFromMetaTags (html : Str) : List Str :=
  (metaTagPatterns.map (fun p =>
    (jsMatch true p html).filterMap (fun m =>
      match jsExec false reContentAttr m with
      | some (_, caps) =>
        match capGet caps 1 with
        | some s =>
          let name := jsTrim s
          if isValidName name then some name else none
        | none => none
      | none => none))).flatten

/-- `[\s\S]` — truly any character. -/
def anyAtAll : RE := .cls true []

/-- `/itemtype="[^"]*Person"[^>]*>[\s\S]*?itemprop="name"[^>]*>([^<]+)</gi`. -/
def reSchemaOrgPerson : RE :=
  rcat [rstr "itemtype=\"", rstar (.cls true [ic '"']), rstr "Person\"",
    rstar (.cls true [ic '>']), RE.lit '>', .rep 0 none false anyAtAll,
    rstr "itemprop=\"name\"", rstar (.cls true [ic '>']), RE.lit '>',
    RE.grp 1 (rplus (.cls true [ic '<'])), RE.lit '<']

/-- Inner `/itemprop="name"[^>]*>([^<]+)</` (no flags). -/
def reItempropName : RE :=
  rcat [rstr "itemprop=\"name\"", rstar (.cls true [ic '>']), RE.lit '>',
    RE.grp 1 (rplus (.cls true [ic '<'])), RE.lit '<']

/-- `extractNamesFromSchemaOrg(html)`. -/
def namesFromSchemaOrg (html : Str) : List Str :=
  (jsMatch true reSchemaOrgPerson html).filterMap (fun m =>
    match jsExec false reItempropName m with
    | some (_, caps) =>
      match capGet caps 1 with
      | some s =>
        let name := jsTrim s
        if isValidName name then some name else none
      | none => none
    | none => none)

/-- `([A-Z][a-z]+\s+[A-Z][a-z]+)` — the microdata name body. -/
def reTwoCapWords : RE :=
  RE.grp 1 (rcat [clsUC, rplus clsLC, ws1, clsUC, rplus clsLC])

/-- The three patterns of `extractNamesFromMicrodata` (flags `gi`). -/
def microdataPatterns : List RE :=
  [ rcat [RE.lit '<', rplus (.cls true [ic '>']), rstr "class=\"",
      rstar (.cls true [ic '"']),
      ralts [rstr "author", rstr "name", rstr "person", rstr "contact"],
      rstar (.cls true [ic '"']), RE.lit '"', rstar (.cls true [ic '>']),
      RE.lit '>', reTwoCapWords, RE.lit '<'],
    rcat [RE.lit '<', rplus (.cls true [ic '>']), rstr "id=\"",
      rstar (.cls true [ic '"']),
      ralts [rstr "author", rstr "name", rstr "person", rstr "contact"],
      rstar (.cls true [ic '"']), RE.lit '"', rstar (.cls true [ic '>']),
      RE.lit '>', reTwoCapWords, RE.lit '<'],
    rcat [rstr "<span", rplus (.cls true [ic '>']), rstr "class=\"",
      rstar (.cls true [ic '"']), rstr "name", rstar (.cls true [ic '"']),
      RE.lit '"', rstar (.cls true [ic '>']), RE.lit '>', reTwoCapWords,
      RE.lit '<'] ]

/-- Inner `/>([A-Z][a-z]+\s+[A-Z][a-z]+)</` (no flags). -/
def reGtName : RE := rcat [RE.lit '>', reTwoCapWords, RE.lit '<']

/-- `extractNamesFromMicrodata(html)`. -/
def namesFromMicrodata (html : Str) : List Str :=
  (microdataPatterns.map (fun p =>
    (jsMatch true p html).filterMap (fun m =>
      match jsExec false reGtName m with
      | some (_, caps) =>
        match capGet caps 1 with
        | some s =>
          let name := jsTrim s
          if isValidName name then some name else none
        | none => none
      | none => none))).flatten

/-- The four social-profile patterns of `extractNamesFromSocialProfiles`
(LinkedIn then Twitter, flags `gi`). -/
def socialProfilePatterns : List RE :=
  [ rcat [rstr "linkedin.com/in/",
      RE.grp 1 (rplus (.cls false [ir 'A' 'Z', ir 'a' 'z', ic '-']))],
    rcat [reNameKey, RE.grp 1 (rplus (.cls true [ic '"'])), RE.lit '"',
      notCloseBrace0, rstr "\"@type\":", ws0, rstr "\"Person\""],
    rcat [rstr "twitter.com/",
      RE.grp 1 (rplus (.cls false [ir 'A' 'Z', ir 'a' 'z', ir '0' '9', ic '_']))],
    rcat [reNameKey, RE.grp 1 (rplus (.cls true [ic '"'])), RE.lit '"',
      notCloseBrace0, rstr "twitter"] ]

/-- `extractNamesFromSocialProfiles(html)`: each match is re-searched with
`/"([^"]+)"/`, hyphens/underscores become spaces, then validity-checked. -/
def namesFromSocialProfiles (html : Str) : List Str :=
  (socialProfilePatterns.map (fun p =>
    (jsMatch true p html).filterMap (fun m =>
      match jsExec false reQuoted m with
      | some (_, caps) =>
        match capGet caps 1 with
        | some s =>
          let name := s.map (fun c => if c = '-' || c = '_' then ' ' else c)
          if isValidName name then some name else none
        | none => none
      | none => none))).flatten

/-- The per-match name extraction of `extractNames`: capture 1 of a fresh
`exec` of the same pattern on the matched substring, or the fallback
pattern when that is missing or empty. -/
def nameFromMatch (ci : Bool) (p : RE) (m : Str) : Option Str :=
  let viaFallback :=
    match jsExec false reNameFallback m with
    | some (_, caps) => capGet caps 1
    | none => none
  match jsExec ci p m with
  | some (_, caps) =>
    match capGet caps 1 with
    | some s => if !s.isEmpty then some s else viaFallback
    | none => viaFallback
  | none => viaFallback

/-- The text-pattern pass of `extractNames`, in `Set.add` order. -/
def nameAddsFromText (text : Str) : List Str :=
  (namePatterns.map (fun p =>
    (jsMatch p.1 p.2 text).filterMap (fun m =>
      match nameFromMatch p.1 p.2 m with
      | some nm =>
        let name := nameCleanup nm
        if isValidName name && !isNameFalsePositive name then some name else none
      | none => none))).flatten

/-- The HTML pass of `extractNames`, in source order. -/
def nameAddsFromHtml (html : Str) : List Str :=
  namesFromStructuredData html ++ namesFromMetaTags html ++ namesFromSchemaOrg html
  ++ namesFromMicrodata html ++ namesFromSocialProfiles html

/-- The sort comparator of `extractNames`: confidence descending, then more
name parts (`split(' ')`), then `localeCompare` (lexicographic on ASCII). -/
def nameLe (a b : Str) : Bool :=
  let ca := calculateNameConfidence a
  let cb := calculateNameConfidence b
  if ca ≠ cb then decide (cb < ca)
  else
    let pa := (splitOnChar ' ' a).length
    let pb := (splitOnChar ' ' b).length
    if pa ≠ pb then decide (pb < pa)
    else lexLe a b

/-- `extractNames(text, html)` (WebScraper.js). -/
def extractNames (text html : Str) : List Str :=
  let adds := nameAddsFromText text ++ (if html.isEmpty then [] else nameAddsFromHtml html)
  let uniq := keepFirsts adds
  let processed :=
    ((uniq.map normalizeName).filter (fun n => !n.isEmpty && isValidName n)).filter
      (fun n => !isNameFalsePositive n)
  (sortB nameLe (keepFirsts processed)).take 8

/-! ## WebScraper.js — confidence scoring, classification, validation -/

/-- `businessDomains` of `calculateEmailConfidence` (sic: consumer webmail
providers, used to give custom domains a bonus). -/
def businessDomains : List Str :=
  [str "gmail.com", str "outlook.com", str "yahoo.com", str "hotmail.com"]

/-- `/^[a-zA-Z]+\.[a-zA-Z]+@/` — the firstname.lastname shape (direct
translation: a maximal nonempty letter run, a dot, a nonempty letter run,
an `@`; since the letter class contains neither `.` nor `@`, backtracking
cannot produce any other decomposition). -/
def firstDotLastShape (email : Str) : Bool :=
  let run1 := email.takeWhile isLetterC
  !run1.isEmpty &&
    (match email.drop run1.length with
     | '.' :: r2 =>
       let run2 := r2.takeWhile isLetterC
       !run2.isEmpty && (r2.drop run2.length).head? = some '@'
     | _ => false)

/-- `/^(info|contact|hello|support)@/` (direct translation, case-sensitive). -/
def bizLocalShape (email : Str) : Bool :=
  strStarts email (str "info@") || strStarts email (str "contact@") ||
  strStarts email (str "hello@") || strStarts email (str "support@")

/-- `calculateEmailConfidence(email)` (WebScraper.js), over ℚ. -/
def calculateEmailConfidence (email : Str) : ℚ :=
  let score : ℚ := 0.5
  let domainIsWebmail :=
    match (splitOnChar '@' email).get? 1 with
    | some d => businessDomains.contains d
    | none => false
  let score := if !domainIsWebmail then score + 0.2 else score
  let score := if 8 < email.length && email.length < 50 then score + 0.1 else score
  let score := if firstDotLastShape email then score + 0.2 else score
  let score := if bizLocalShape email then score + 0.1 else score
  jsMin score 1.0

/-- `classifyEmailType(email)` (WebScraper.js; all tests case-sensitive). -/
def classifyEmailType (email : Str) : Str :=
  if strStarts email (str "info@") || strStarts email (str "contact@") ||
    strStarts email (str "hello@") then str "general"
  else if strStarts email (str "support@") || strStarts email (str "help@") then
    str "support"
  else if strStarts email (str "sales@") || strStarts email (str "marketing@") then
    str "sales"
  else if firstDotLastShape email then str "personal"
  else str "other"

/-- `/^\+1\s\(\d{3}\)\s\d{3}-\d{4}$/` (direct translation). -/
def usFormatted11 (phone : Str) : Bool :=
  match phone with
  | '+' :: '1' :: s1 :: '(' :: a :: b :: c :: ')' :: s2 :: d :: e :: f :: '-' ::
      g :: h :: i :: j :: [] =>
    jsSpace s1 && jsSpace s2 && [a, b, c, d, e, f, g, h, i, j].all jsDigit
  | _ => false

/-- `/^\(\d{3}\)\s\d{3}-\d{4}$/` (direct translation). -/
def usFormatted10 (phone : Str) : Bool :=
  match phone with
  | '(' :: a :: b :: c :: ')' :: s1 :: d :: e :: f :: '-' :: g :: h :: i :: j :: [] =>
    jsSpace s1 && [a, b, c, d, e, f, g, h, i, j].all jsDigit
  | _ => false

/-- `calculatePhoneConfidence(phone)` (WebScraper.js), over ℚ. -/
def calculatePhoneConfidence (phone : Str) : ℚ :=
  let score : ℚ := 0.5
  let score := if usFormatted11 phone then score + 0.3 else score
  let score := if usFormatted10 phone then score + 0.2 else score
  let score := if strIncludes phone (str "tel:") then score + 0.1 else score
  let cleaned := phone.filter jsDigit
  let score := if cleaned.length = 10 || cleaned.length = 11 then score + 0.2 else score
  jsMin score 1.0

/-- The toll-free area codes of `classifyPhoneType`. -/
def tollFreeCodes : List Str :=
  [str "800", str "833", str "844", str "855", str "866", str "877", str "888"]

/-- `/^1?(800|833|844|855|866|877|888)/` (direct translation: the optional
leading `1` either participates or not; the test succeeds iff the digits
begin with a code or with `1` followed by a code). -/
def tollFreeStart (cleaned : Str) : Bool :=
  tollFreeCodes.any (fun c => strStarts cleaned c) ||
  (match cleaned with
   | '1' :: rest => tollFreeCodes.any (fun c => strStarts rest c)
   | _ => false)

/-- `classifyPhoneType(phone)` (WebScraper.js).  Note that `cleaned` is the
digit-only string, so the `startsWith('+')` branch is transcribed exactly
as written even though it can never fire. -/
def classifyPhoneType (phone : Str) : Str :=
  let cleaned := phone.filter jsDigit
  if tollFreeStart cleaned then str "toll-free"
  else if cleaned.length = 10 || (cleaned.length = 11 && strStarts cleaned (str "1"))
    then str "us-local"
  else if strStarts cleaned (str "+") then str "international"
  else str "other"

/-- The email stage of `validateExtractedData`: revalidate, score, sort by
confidence descending, truncate to 10, project back to the values (the
`type` field computed by `classifyEmailType` is dropped by the final
projection and therefore not carried). -/
def validateEmails (emails : List Str) : List Str :=
  let scored :=
    ((emails.filter isValidEmail).filter (fun e => !isEmailFalsePositive e)).map
      (fun e => (e, calculateEmailConfidence e))
  (((sortB (fun a b => decide (b.2 ≤ a.2)) scored).take 10).map (fun p => p.1))

/-- The phone stage of `validateExtractedData`. -/
def validatePhones (phones : List Str) : List Str :=
  let scored :=
    (phones.filter (fun p => !isPhoneFalsePositive p)).map
      (fun p => (p, calculatePhoneConfidence p))
  (((sortB (fun a b => decide (b.2 ≤ a.2)) scored).take 6).map (fun p => p.1))

/-- The name stage of `validateExtractedData`: confidence descending, ties
by completeness descending, truncate to 5. -/
def validateNames (names : List Str) : List Str :=
  let scored :=
    ((names.filter isValidName).filter (fun n => !isNameFalsePositive n)).map
      (fun n => (n, calculateNameConfidence n, assessNameCompleteness n))
  let le := fun (a b : Str × ℚ × ℚ) =>
    if a.2.1 ≠ b.2.1 then decide (b.2.1 ≤ a.2.1) else decide (b.2.2 ≤ a.2.2)
  (((sortB le scored).take 5).map (fun p => p.1))

/-! ## EnhancedWebScraper.js — email extraction -/

namespace Enhanced

/-- `[A-Za-z0-9]`. -/
def clsAlnum : RE := .cls false [ir 'A' 'Z', ir 'a' 'z', ir '0' '9']

/-- `[A-Za-z0-9-]`. -/
def clsAlnumDash : RE := .cls false [ir 'A' 'Z', ir 'a' 'z', ir '0' '9', ic '-']

/-- One domain label `[A-Za-z0-9](?:[A-Za-z0-9-]{0,61}[A-Za-z0-9])?`. -/
def reLabel : RE :=
  .seq clsAlnum (ropt (.seq (rrep 0 61 clsAlnumDash) clsAlnum))

/-- The `emailPattern` of `EnhancedWebScraper.extractEmails` (flags `g`):
`\b[A-Za-z0-9.!#$%&'*+\/=?^_`{|}~-]+@label(?:\.label)*\b` — note that the
domain needs no dot. -/
def emailPattern : RE :=
  rcat [RE.wb,
    rplus (.cls false [ir 'A' 'Z', ir 'a' 'z', ir '0' '9', ic '.', ic '!', ic '#',
      ic '$', ic '%', ic '&', ic apos, ic '*', ic '+', ic '/', ic '=', ic '?',
      ic '^', ic '_', ic btick, ic '{', ic '|', ic '}', ic '~', ic '-']),
    RE.lit '@', reLabel, rstar (.seq (RE.lit '.') reLabel), RE.wb]

/-- `isEmailFalsePositive(email)` (EnhancedWebScraper.js): nine substring /
suffix patterns, all case-insensitive (direct translations). -/
def isEmailFalsePositive (email : Str) : Bool :=
  let low := lowerStr email
  strIncludes low (str "@example.") || strIncludes low (str "@test.") ||
  strIncludes low (str "@localhost") || strIncludes low (str "noreply@") ||
  strIncludes low (str "no-reply@") || strIncludes low (str "donotreply@") ||
  strIncludes low (str "@domain.") || strIncludes low (str "@your-domain.") ||
  [str ".png", str ".jpg", str ".jpeg", str ".gif", str ".pdf", str ".doc",
   str ".docx", str ".zip", str ".rar"].any (fun ext => strEnds low ext)

/-- `EnhancedWebScraper.extractEmails(text, '')`: the text pass (the HTML
pass uses the external cheerio DOM and is skipped by the source whenever
`html` is empty, which is the only configuration evaluated here).  Matches
pass only the false-positive list — no structural validation — then are
lower-cased, deduplicated in insertion order and truncated to 10. -/
def extractEmailsText (text : Str) : List Str :=
  (keepFirsts ((jsMatch false emailPattern text).filterMap (fun m =>
    if !isEmailFalsePositive m then some (lowerStr m) else none))).take 10

end Enhanced

/-! ## JavaScript calling convention for malformed inputs -/

/-- A JavaScript value as it may arrive in the `text` parameter. -/
inductive JSVal where
  | jstr (s : Str)
  | jnum (q : ℚ)
  | jbool (b : Bool)
  | jundefined
  | jnull
deriving DecidableEq

/-- Is the value a string? -/
def JSVal.isString : JSVal → Bool
  | .jstr _ => true
  | _ => false

/-- `extractEmails` as called with an arbitrary value: a non-string `text`
reaches `text.match(pattern)` in the first `forEach` iteration unguarded,
so the call throws a `TypeError`. -/
def extractEmailsJS (text : JSVal) (html : Str) : Except Str (List Str) :=
  match text with
  | .jstr s => .ok (extractEmails s html)
  | _ => .error (str "TypeError: text.match is not a function")

/-- `extractPhoneNumbers` with an arbitrary `text` value. -/
def extractPhoneNumbersJS (text : JSVal) (html : Str) : Except Str (List Str) :=
  match text with
  | .jstr s => .ok (extractPhoneNumbers s html)
  | _ => .error (str "TypeError: text.match is not a function")

/-- `extractNames` with an arbitrary `text` value. -/
def extractNamesJS (text : JSVal) (html : Str) : Except Str (List Str) :=
  match text with
  | .jstr s => .ok (extractNames s html)
  | _ => .error (str "TypeError: text.match is not a function")

/-! ## Claim-specific inputs and helpers -/

/-- Number of (possibly overlapping) occurrences of `pat` in `s`. -/
def countOcc (s pat : Str) : Nat :=
  match s with
  | [] => 0
  | c :: rest => (if pat.isPrefixOf (c :: rest) then 1 else 0) + countOcc rest pat

/-- The end-to-end scenario text of spec §8.7. -/
def c1text : Str :=
  str "Contact John Smith at john.smith@company.com or call (555) 123-4567."

/-- A document containing `a@b.com` and `A@B.COM` twice each. -/
def c6doc : Str := str "a@b.com A@B.COM a@b.com A@B.COM"

/-- The same document shape with three-letter local parts and domains. -/
def c6docOk : Str := str "abc@cde.com ABC@CDE.COM abc@cde.com ABC@CDE.COM"

/-- An HTML fragment whose `data-phone` attribute carries an inner `+`. -/
def c2html : Str := str "<div data-phone=\"92+34568\">"

/-! ## Claim theorems -/

/-- C1 (counterexample): on the spec's end-to-end text, `extractEmails` does
not return `john.smith@company.com`, no returned phone has digits
`5551234567`, and `extractNames` does not return `John Smith` — each value
sits on one of the code's own false-positive lists. -/
theorem C1_counterexample :
    (str "john.smith@company.com") ∉ extractEmails c1text [] ∧
    (extractPhoneNumbers c1text []).all
      (fun p => p.filter jsDigit ≠ str "5551234567") = true ∧
    (str "John Smith") ∉ extractNames c1text [] := by
  refine ⟨?_, ?_, ?_⟩ <;> decide

/-- C1 (amended): on the spec's end-to-end text the code returns no email
(`company.com` is on `domainFalsePositives`), no phone (`5551234567` is a
Hollywood number and `1234567` a test number), and the single name
`Contact John Smith` (the generic capitalized-sequence patterns capture the
leading verb, while `John Smith` itself is on the placeholder-name list). -/
theorem C1_amended_rejections :
    extractEmails c1text [] = [] ∧
    extractPhoneNumbers c1text [] = [] ∧
    extractNames c1text [] = [str "Contact John Smith"] ∧
    isEmailFalsePositive (str "john.smith@company.com") = true ∧
    isPhoneFalsePositive (str "(555) 123-4567") = true ∧
    isNameFalsePositive (str "John Smith") = true := by
  refine ⟨?_, ?_, ?_, ?_, ?_, ?_⟩ <;> decide

/-- C6 (counterexample): a document containing `a@b.com` and `A@B.COM`
twice each yields no record at all — `a@b.com` matches the
single-character-local-part false-positive pattern — so `extractEmails`
does not return exactly one record for that address. -/
theorem C6_counterexample :
    countOcc c6doc (str "a@b.com") = 2 ∧
    countOcc c6doc (str "A@B.COM") = 2 ∧
    isValidEmail (str "a@b.com") = true ∧
    isEmailFalsePositive (str "a@b.com") = true ∧
    extractEmails c6doc [] = [] := by
  refine ⟨?_, ?_, ?_, ?_, ?_⟩ <;> decide

/-- C6 (amended): the address `a@b.com` is dropped by the false-positive
filter, so the spec's dedup document yields no record; for an address that
passes the filter, a document containing `abc@cde.com` and `ABC@CDE.COM`
twice each yields exactly one record, with the canonical lower-case value. -/
theorem C6_amended_dedup :
    extractEmails c6doc [] = [] ∧
    countOcc c6docOk (str "abc@cde.com") = 2 ∧
    countOcc c6docOk (str "ABC@CDE.COM") = 2 ∧
    extractEmails c6docOk [] = [str "abc@cde.com"] := by
  refine ⟨?_, ?_, ?_, ?_⟩ <;> decide

/-- C10: `EnhancedWebScraper.extractEmails` applies only its false-positive
pattern list, so it returns `foo@bar`, whose domain part contains no dot;
`WebScraper.isValidEmail` rejects that value and `WebScraper.extractEmails`
returns nothing on the same text — the two extractors differ. -/
theorem C10_extractor_inequivalence :
    Enhanced.extractEmailsText (str "foo@bar") = [str "foo@bar"] ∧
    (match (splitOnChar '@' (str "foo@bar")).get? 1 with
     | some d => strIncludes d (str ".")
     | none => true) = false ∧
    isValidEmail (str "foo@bar") = false ∧
    extractEmails (str "foo@bar") [] = [] := by
  refine ⟨?_, ?_, ?_, ?_⟩ <;> decide

/-- C5 (counterexample): with `text = undefined` the email extractor does
not return an empty list — it reaches `text.match` unguarded and throws. -/
theorem C5_counterexample :
    extractEmailsJS JSVal.jundefined [] =
      .error (str "TypeError: text.match is not a function") ∧
    extractEmailsJS JSVal.jundefined [] ≠ .ok [] := by
  exact ⟨rfl, fun h => Except.noConfusion h⟩

/-- C5 (amended): for every non-string `text` each extractor throws a
`TypeError` (none of them guards the first `text.match` call); empty-string
`text` and `html` do yield empty lists. -/
theorem C5_amended_behavior (v : JSVal) (hv : v.isString = false) :
    (∃ e, extractEmailsJS v [] = .error e) ∧
    (∃ e, extractPhoneNumbersJS v [] = .error e) ∧
    (∃ e, extractNamesJS v [] = .error e) ∧
    extractEmails [] [] = [] ∧
    extractPhoneNumbers [] [] = [] ∧
    extractNames [] [] = [] := by
  cases v with
  | jstr s => simp [JSVal.isString] at hv
  | jnum q => exact ⟨⟨_, rfl⟩, ⟨_, rfl⟩, ⟨_, rfl⟩, by decide, by decide, by decide⟩
  | jbool b => exact ⟨⟨_, rfl⟩, ⟨_, rfl⟩, ⟨_, rfl⟩, by decide, by decide, by decide⟩
  | jundefined => exact ⟨⟨_, rfl⟩, ⟨_, rfl⟩, ⟨_, rfl⟩, by decide, by decide, by decide⟩
  | jnull => exact ⟨⟨_, rfl⟩, ⟨_, rfl⟩, ⟨_, rfl⟩, by decide, by decide, by decide⟩

/-- C5 (witness): the amended statement applied at `undefined`. -/
theorem C5_witness :
    JSVal.isString JSVal.jundefined = false ∧
    ((∃ e, extractEmailsJS JSVal.jundefined [] = .error e) ∧
     (∃ e, extractPhoneNumbersJS JSVal.jundefined [] = .error e) ∧
     (∃ e, extractNamesJS JSVal.jundefined [] = .error e) ∧
     extractEmails [] [] = [] ∧
     extractPhoneNumbers [] [] = [] ∧
     extractNames [] [] = []) :=
  ⟨by decide, C5_amended_behavior JSVal.jundefined (by decide)⟩

/-- C2 (counterexample): `extractPhoneNumbers` can return a value whose
cleaned form is neither exactly 7 digits long nor starts with `+` — an
HTML `data-phone` attribute carrying an inner `+` survives every guard. -/
theorem C2_counterexample :
    extractPhoneNumbers [] c2html = [str "92+34568"] ∧
    cleanPhoneNumber (str "92+34568") = str "92+34568" ∧
    (cleanPhoneNumber (str "92+34568")).length = 8 ∧
    strStarts (cleanPhoneNumber (str "92+34568")) (str "+") = false := by
  refine ⟨?_, ?_, ?_, ?_⟩ <;> decide

/-- C9 (counterexample): an input with a leading `+` that is neither
toll-free nor a 10/11-digit US number is classified `other`, not
`international` — the `startsWith('+')` test runs on the digit-stripped
string and can never succeed. -/
theorem C9_counterexample :
    strStarts (str "+123456789012") (str "+") = true ∧
    tollFreeStart ((str "+123456789012").filter jsDigit) = false ∧
    ((str "+123456789012").filter jsDigit).length = 12 ∧
    classifyPhoneType (str "+123456789012") = str "other" := by
  refine ⟨?_, ?_, ?_, ?_⟩ <;> decide

/-! ## Membership and no-match lemmas -/

theorem mem_keepFirstsAux (l : List Str) :
    ∀ (seen : List Str) (a : Str), a ∈ keepFirstsAux seen l → a ∈ l := by
  induction l with
  | nil => intro seen a h; exact h
  | cons x xs ih =>
    intro seen a h
    simp only [keepFirstsAux] at h
    split at h
    · exact List.mem_cons_of_mem _ (ih _ _ h)
    · rcases List.mem_cons.mp h with hax | h2
      · exact hax ▸ List.mem_cons_self x xs
      · exact List.mem_cons_of_mem _ (ih _ _ h2)

theorem mem_keepFirsts (l : List Str) (a : Str) (h : a ∈ keepFirsts l) : a ∈ l :=
  mem_keepFirstsAux l [] a h

theorem jsExec_none_of_not_rtest (ci : Bool) (re : RE) (s : Str)
    (h : rtest ci re s = false) : jsExec ci re s = none := by
  unfold rtest at h
  cases he : jsExec ci re s with
  | none => rfl
  | some v => rw [he] at h; simp at h

theorem replaceAllAux_no_match (ci : Bool) (re : RE) (t : List TPart) :
    ∀ (f : Nat) (s : Str) (prev : Option Char),
      execFirstAux f ci re s prev = none → replaceAllAux f ci re t s prev = s := by
  intro f
  induction f with
  | zero => intro s prev _; rfl
  | succ f ih =>
    intro s prev h
    simp only [execFirstAux] at h
    simp only [replaceAllAux]
    cases htry : tryAt ci re s prev with
    | some res =>
      rw [htry] at h
      exact absurd h (by simp)
    | none =>
      rw [htry] at h
      cases s with
      | nil => rfl
      | cons c rest => exact congrArg (c :: ·) (ih rest (some c) h)

theorem jsReplaceAll_no_match (ci : Bool) (re : RE) (t : List TPart) (s : Str)
    (h : jsExec ci re s = none) : jsReplaceAll ci re t s = s :=
  replaceAllAux_no_match ci re t (s.length + 1) s none h

/-- No obfuscation-replacement pattern of `cleanObfuscatedEmail` matches. -/
def noResidualObfuscation (s : Str) : Bool :=
  !rtest true reMarkBracketAt s && !rtest true reMarkBracketDot s &&
  !rtest true reMarkParenAt s && !rtest true reMarkParenDot s &&
  !rtest false reSpacedAt s && !rtest false reSpacedDot s && !rtest false sSp s

/-- C4 (amended): `cleanObfuscatedEmail` is idempotent exactly on the inputs
whose once-cleaned form contains no residual match of any of its seven
replacement patterns; a second pass is then the identity. -/
theorem C4_amended_idempotent (s : Str)
    (h : noResidualObfuscation (cleanObfuscatedEmail s) = true) :
    cleanObfuscatedEmail (cleanObfuscatedEmail s) = cleanObfuscatedEmail s := by
  simp only [noResidualObfuscation, Bool.and_eq_true, Bool.not_eq_true'] at h
  obtain ⟨⟨⟨⟨⟨⟨h1, h2⟩, h3⟩, h4⟩, h5⟩, h6⟩, h7⟩ := h
  have e1 := jsExec_none_of_not_rtest _ _ _ h1
  have e2 := jsExec_none_of_not_rtest _ _ _ h2
  have e3 := jsExec_none_of_not_rtest _ _ _ h3
  have e4 := jsExec_none_of_not_rtest _ _ _ h4
  have e5 := jsExec_none_of_not_rtest _ _ _ h5
  have e6 := jsExec_none_of_not_rtest _ _ _ h6
  have e7 := jsExec_none_of_not_rtest _ _ _ h7
  conv_lhs => rw [cleanObfuscatedEmail]
  rw [jsReplaceAll_no_match _ _ _ _ e1, jsReplaceAll_no_match _ _ _ _ e2,
    jsReplaceAll_no_match _ _ _ _ e3, jsReplaceAll_no_match _ _ _ _ e4,
    jsReplaceAll_no_match _ _ _ _ e5, jsReplaceAll_no_match _ _ _ _ e6,
    jsReplaceAll_no_match _ _ _ _ e7]

/-- C4 (witness): a concrete obfuscated address whose cleaned form has no
residual marker, run through the amended idempotence statement. -/
theorem C4_witness :
    noResidualObfuscation (cleanObfuscatedEmail (str "john [at] smith")) = true ∧
    cleanObfuscatedEmail (cleanObfuscatedEmail (str "john [at] smith")) =
      cleanObfuscatedEmail (str "john [at] smith") :=
  ⟨by decide, C4_amended_idempotent (str "john [at] smith") (by decide)⟩

/-- C4 (counterexample): `cleanObfuscatedEmail` is not idempotent — the
whitespace removal of one pass can assemble a fresh `[at]` marker that only
the next pass rewrites. -/
theorem C4_counterexample :
    cleanObfuscatedEmail (str "[ a t ]") = str "[at]" ∧
    cleanObfuscatedEmail (cleanObfuscatedEmail (str "[ a t ]")) = str "@" ∧
    cleanObfuscatedEmail (cleanObfuscatedEmail (str "[ a t ]")) ≠
      cleanObfuscatedEmail (str "[ a t ]") := by
  refine ⟨?_, ?_, ?_⟩ <;> decide

/-- C3: every email returned by `extractEmails` passed the structural,
false-positive and domain filters — they are applied, in that order, to the
very list the function returns. -/
theorem C3_validation_soundness (text html e : Str)
    (he : e ∈ extractEmails text html) :
    isValidEmail e = true ∧ isEmailFalsePositive e = false ∧
    isValidEmailDomain e = true := by
  simp only [extractEmails] at he
  have h2 := mem_keepFirsts _ _ (List.mem_of_mem_take he)
  have h3 := (mem_sortB _ _ _).mp h2
  have h4 := List.mem_filter.mp h3
  have h5 := List.mem_filter.mp h4.1
  have h6 := List.mem_filter.mp h5.1
  have hfp : isEmailFalsePositive e = false := by
    have hnot := h5.2
    cases hb : isEmailFalsePositive e with
    | false => rfl
    | true => rw [hb] at hnot; exact absurd hnot (by decide)
  exact ⟨h6.2, hfp, h4.2⟩

/-- C3 (witness): the soundness statement at a concrete accepted email. -/
theorem C3_witness :
    (str "abc@cde.com") ∈ extractEmails (str "abc@cde.com") [] ∧
    (isValidEmail (str "abc@cde.com") = true ∧
     isEmailFalsePositive (str "abc@cde.com") = false ∧
     isValidEmailDomain (str "abc@cde.com") = true) :=
  ⟨by decide, C3_validation_soundness (str "abc@cde.com") [] (str "abc@cde.com")
    (by decide)⟩

/-- C7: all three confidence scorers stay within `[0.1, 1.0]` on every
input — each starts from 0.5, only adds nonnegative bonuses, and is clamped
by `Math.min(·, 1.0)`. -/
theorem jsMin_one_bounds (x : ℚ) (hx : (1/2 : ℚ) ≤ x) :
    (0.1 : ℚ) ≤ jsMin x 1.0 ∧ jsMin x 1.0 ≤ 1.0 := by
  unfold jsMin
  split_ifs with h
  · exact ⟨by linarith, h⟩
  · exact ⟨by norm_num, by norm_num⟩

theorem C7_confidence_bounds (s : Str) :
    ((0.1 : ℚ) ≤ calculateEmailConfidence s ∧ calculateEmailConfidence s ≤ 1.0) ∧
    ((0.1 : ℚ) ≤ calculatePhoneConfidence s ∧ calculatePhoneConfidence s ≤ 1.0) ∧
    ((0.1 : ℚ) ≤ calculateNameConfidence s ∧ calculateNameConfidence s ≤ 1.0) := by
  refine ⟨?_, ?_, ?_⟩ <;> dsimp only [calculateEmailConfidence,
    calculatePhoneConfidence, calculateNameConfidence] <;>
    (apply jsMin_one_bounds; split_ifs <;> norm_num)

theorem filter_digits_not_plus (l : Str) :
    strStarts (l.filter jsDigit) (str "+") = false := by
  cases h : l.filter jsDigit with
  | nil => rfl
  | cons c rest =>
    have hcmem : c ∈ l.filter jsDigit := by
      rw [h]; exact List.mem_cons_self c rest
    have hc : jsDigit c = true := (List.mem_filter.mp hcmem).2
    have hne : ('+' == c) = false := by
      cases hq : ('+' == c) with
      | false => rfl
      | true =>
        have hcp : c = '+' := (beq_iff_eq.mp hq).symm
        rw [hcp] at hc
        exact absurd hc (by decide)
    rw [show str "+" = ['+'] from rfl]
    show List.isPrefixOf ['+'] (c :: rest) = false
    simp [List.isPrefixOf, hne]

/-- C9 (amended): `classifyPhoneType` classifies toll-free prefixes and
10/11-digit US shapes as the claim says, but everything else — including
inputs with a leading `+` — is classified `other`: the `startsWith('+')`
test runs on the digit-stripped string, so `international` is unreachable. -/
theorem C9_amended_classification (phone : Str) :
    classifyPhoneType phone ≠ str "international" ∧
    classifyPhoneType phone =
      (if tollFreeStart (phone.filter jsDigit) then str "toll-free"
       else if (phone.filter jsDigit).length = 10 ||
           ((phone.filter jsDigit).length = 11 &&
            strStarts (phone.filter jsDigit) (str "1")) then str "us-local"
       else str "other") := by
  have hplus := filter_digits_not_plus phone
  have heq : classifyPhoneType phone =
      (if tollFreeStart (phone.filter jsDigit) then str "toll-free"
       else if (phone.filter jsDigit).length = 10 ||
           ((phone.filter jsDigit).length = 11 &&
            strStarts (phone.filter jsDigit) (str "1")) then str "us-local"
       else str "other") := by
    simp only [classifyPhoneType, hplus]
    split_ifs <;> simp_all
  refine ⟨?_, heq⟩
  rw [heq]
  split_ifs <;> decide

/-! ## Phone-shape lemmas for claim C2 -/

theorem keep_of_space (c : Char) (h : jsSpace c = true) :
    (jsDigit c || c = '+') = false := by
  simp only [jsSpace, Bool.or_eq_true, decide_eq_true_eq] at h
  rcases h with ((((((h | h) | h) | h) | h) | h) | h) <;> subst h <;> decide

theorem cleanPhone_dropWhile (l : Str) :
    cleanPhoneNumber (l.dropWhile jsSpace) = cleanPhoneNumber l := by
  induction l with
  | nil => rfl
  | cons c rest ih =>
    cases hc : jsSpace c with
    | true =>
      rw [List.dropWhile_cons_of_pos hc, ih]
      simp [cleanPhoneNumber, List.filter_cons, keep_of_space c hc]
    | false => rw [List.dropWhile_cons_of_neg (by simp [hc])]

theorem cleanPhone_reverse (l : Str) :
    cleanPhoneNumber l.reverse = (cleanPhoneNumber l).reverse := by
  simp [cleanPhoneNumber, List.filter_reverse]

theorem cleanPhone_trim (l : Str) : cleanPhoneNumber (jsTrim l) = cleanPhoneNumber l := by
  unfold jsTrim
  rw [cleanPhone_reverse, cleanPhone_dropWhile, cleanPhone_reverse,
    cleanPhone_dropWhile, List.reverse_reverse]

theorem validPhone_digit_len7 (s : Str) (hdig : s.all jsDigit = true)
    (hv : isValidPhoneNumber s = true) : s.length = 7 := by
  have hfilter : s.filter jsDigit = s :=
    List.filter_eq_self.mpr (fun a ha => (List.all_eq_true.mp hdig) a ha)
  by_contra hne
  unfold isValidPhoneNumber at hv
  rcases Nat.lt_or_ge s.length 7 with hlt | hge
  · rw [if_pos (by rw [hfilter]; exact hlt)] at hv
    exact absurd hv (by decide)
  · have h8 : 8 ≤ s.length := by omega
    have hskip : (isDateDashShape s || isDateSlashYShape s || isDateSlashDShape s ||
        isBareDigits8 s) = true := by
      have : isBareDigits8 s = true := by simp [isBareDigits8, h8, hdig]
      simp [this]
    by_cases hc1 : (s.filter jsDigit).length < 7
    · rw [if_pos hc1] at hv
      exact absurd hv (by decide)
    · rw [if_neg hc1] at hv
      by_cases hc2 : (decide (s.length < 7) || decide (15 < s.length)) = true
      · rw [if_pos hc2] at hv
        exact absurd hv (by decide)
      · rw [if_neg hc2, if_pos hskip] at hv
        exact absurd hv (by decide)

theorem validPhone_false_of_bare8 (s : Str) (hdig : s.all jsDigit = true)
    (hlen : 8 ≤ s.length) : isValidPhoneNumber s = false := by
  unfold isValidPhoneNumber
  have hskip : (isDateDashShape s || isDateSlashYShape s || isDateSlashDShape s ||
      isBareDigits8 s) = true := by
    have : isBareDigits8 s = true := by simp [isBareDigits8, hlen, hdig]
    simp [this]
  by_cases hc1 : (s.filter jsDigit).length < 7
  · rw [if_pos hc1]
  · rw [if_neg hc1]
    by_cases hc2 : (decide (s.length < 7) || decide (15 < s.length)) = true
    · rw [if_pos hc2]
    · rw [if_neg hc2, if_pos hskip]

theorem valid_cleaned_shape (q : Str)
    (hv : isValidPhoneNumber (cleanPhoneNumber q) = true) :
    ((cleanPhoneNumber q).all jsDigit = true ∧ (cleanPhoneNumber q).length = 7) ∨
      '+' ∈ cleanPhoneNumber q := by
  by_cases hp : '+' ∈ cleanPhoneNumber q
  · exact Or.inr hp
  · left
    have hall : (cleanPhoneNumber q).all jsDigit = true := by
      rw [List.all_eq_true]
      intro c hcmem
      have hk := (List.mem_filter.mp hcmem).2
      have hk2 : jsDigit c = true ∨ c = '+' := by simpa using hk
      rcases hk2 with hd | he
      · exact hd
      · exact absurd (he ▸ hcmem) hp
    exact ⟨hall, validPhone_digit_len7 _ hall hv⟩

theorem substr_decomp (l : Str) :
    substr l 0 3 ++ substr l 3 6 ++ substrFrom l 6 = l := by
  simp only [substr, substrFrom, List.drop_zero]
  have h36 : List.take 3 (List.take 6 l) = List.take 3 l := by
    simp [List.take_take]
  rw [← h36, List.take_append_drop, List.take_append_drop]

theorem clean_format_shape (q : Str)
    (hv : isValidPhoneNumber (cleanPhoneNumber q) = true) :
    ((cleanPhoneNumber (formatPhoneNumber q)).all jsDigit = true ∧
      (cleanPhoneNumber (formatPhoneNumber q)).length = 7) ∨
      '+' ∈ cleanPhoneNumber (formatPhoneNumber q) := by
  unfold formatPhoneNumber
  dsimp only
  split_ifs with h10 h11
  · right
    have hplus : '+' ∈ cleanPhoneNumber q := by
      rcases valid_cleaned_shape q hv with ⟨hall, hlen⟩ | hp
      · omega
      · exact hp
    have hdecomp := substr_decomp (cleanPhoneNumber q)
    rw [← hdecomp] at hplus
    refine List.mem_filter.mpr ⟨?_, by decide⟩
    simp only [List.mem_append] at hplus ⊢
    tauto
  · right
    refine List.mem_filter.mpr ⟨?_, by decide⟩
    simp [List.mem_append, str]
  · rw [cleanPhone_trim]
    exact valid_cleaned_shape q hv

theorem phoneAddsFromText_valid (text : Str) (q : Str)
    (hq : q ∈ phoneAddsFromText text) :
    isValidPhoneNumber (cleanPhoneNumber q) = true := by
  simp only [phoneAddsFromText] at hq
  rcases List.mem_flatten.mp hq with ⟨inner, hinner, hmem⟩
  rcases List.mem_map.mp hinner with ⟨p, _, rfl⟩
  rcases List.mem_filterMap.mp hmem with ⟨m, _, hfm⟩
  by_cases hcond : (isValidPhoneNumber (cleanPhoneNumber m) &&
      !isPhoneFalsePositive m) = true
  · rw [if_pos hcond] at hfm
    have hq2 : q = jsTrim m := (Option.some.inj hfm).symm
    subst hq2
    rw [cleanPhone_trim]
    have hsplit : isValidPhoneNumber (cleanPhoneNumber m) = true ∧
        (!isPhoneFalsePositive m) = true := by simpa using hcond
    exact hsplit.1
  · rw [if_neg hcond] at hfm
    exact absurd hfm (by simp)

theorem phonesFromUrls_valid (urls : List Str) (q : Str)
    (hq : q ∈ phonesFromUrls urls) :
    isValidPhoneNumber (cleanPhoneNumber q) = true := by
  simp only [phonesFromUrls] at hq
  rcases List.mem_filterMap.mp hq with ⟨url, _, hfm⟩
  by_cases h1 : url.isEmpty = true
  · rw [if_pos h1] at hfm; exact absurd hfm (by simp)
  · rw [if_neg h1] at hfm
    by_cases h2 : (!rtest true rePhoneUrlStart url) = true
    · rw [if_pos h2] at hfm; exact absurd hfm (by simp)
    · rw [if_neg h2] at hfm
      by_cases h3 : isValidPhoneNumber (cleanPhoneNumber
          (jsTrim (jsReplaceFirst true rePhoneUrlStart [] url))) = true
      · rw [if_pos h3] at hfm
        have hq2 : q = jsTrim (jsReplaceFirst true rePhoneUrlStart [] url) :=
          (Option.some.inj hfm).symm
        subst hq2
        exact h3
      · rw [if_neg h3] at hfm; exact absurd hfm (by simp)

theorem phoneFromHtmlMatch_valid (inner : RE) (m q : Str)
    (hq : phoneFromHtmlMatch inner m = some q) :
    isValidPhoneNumber (cleanPhoneNumber q) = true := by
  unfold phoneFromHtmlMatch at hq
  cases he : jsExec false inner m with
  | none => rw [he] at hq; exact absurd hq (by simp)
  | some r =>
    obtain ⟨mv, caps⟩ := r
    rw [he] at hq
    dsimp only at hq
    cases hc : capGet caps 1 with
    | none => rw [hc] at hq; exact absurd hq (by simp)
    | some p =>
      rw [hc] at hq
      dsimp only at hq
      by_cases hcond : (isValidPhoneNumber (cleanPhoneNumber (jsTrim p)) &&
          !isPhoneFalsePositive (jsTrim p)) = true
      · rw [if_pos hcond] at hq
        have hq2 : q = jsTrim p := (Option.some.inj hq).symm
        subst hq2
        have hsplit : isValidPhoneNumber (cleanPhoneNumber (jsTrim p)) = true ∧
            (!isPhoneFalsePositive (jsTrim p)) = true := by simpa using hcond
        exact hsplit.1
      · rw [if_neg hcond] at hq; exact absurd hq (by simp)

theorem phoneAddsFromHtml_valid (html : Str) (q : Str)
    (hq : q ∈ phoneAddsFromHtml html) :
    isValidPhoneNumber (cleanPhoneNumber q) = true := by
  simp only [phoneAddsFromHtml] at hq
  rcases List.mem_append.mp hq with h | h
  · rcases List.mem_append.mp h with h1 | h2
    · exact phonesFromUrls_valid _ _ h1
    · rcases List.mem_flatten.mp h2 with ⟨inner, hinner, hmem⟩
      rcases List.mem_map.mp hinner with ⟨p, _, rfl⟩
      rcases List.mem_filterMap.mp hmem with ⟨m, _, hfm⟩
      exact phoneFromHtmlMatch_valid _ _ _ hfm
  · rcases List.mem_flatten.mp h with ⟨inner, hinner, hmem⟩
    rcases List.mem_map.mp hinner with ⟨p, _, rfl⟩
    rcases List.mem_filterMap.mp hmem with ⟨m, _, hfm⟩
    exact phoneFromHtmlMatch_valid _ _ _ hfm

/-- C2 (amended): the `^[0-9]{8,}$` skip pattern does run against the
separator-stripped cleaned form, so `isValidPhoneNumber` rejects every bare
digit string of length ≥ 8; consequently every value `extractPhoneNumbers`
returns has a cleaned form that is either exactly 7 bare digits or contains
a `+` (not necessarily leading: an HTML candidate can carry an inner `+`).
In particular no plain 8-to-15-digit number is ever returned. -/
theorem C2_amended_valid_phone_shape :
    (∀ s : Str, s.all jsDigit = true → 8 ≤ s.length → isValidPhoneNumber s = false) ∧
    (∀ text html p : Str, p ∈ extractPhoneNumbers text html →
      ((cleanPhoneNumber p).all jsDigit = true ∧ (cleanPhoneNumber p).length = 7) ∨
        '+' ∈ cleanPhoneNumber p) := by
  constructor
  · intro s h1 h2
    exact validPhone_false_of_bare8 s h1 h2
  · intro text html p hp
    simp only [extractPhoneNumbers] at hp
    have h2 := mem_keepFirsts _ _ (List.mem_of_mem_take hp)
    have h3 := (mem_sortB _ _ _).mp h2
    rcases List.mem_map.mp h3 with ⟨q, hqmem, rfl⟩
    have hq1 := (List.mem_filter.mp hqmem).1
    have hqadds := mem_keepFirsts _ _ hq1
    have hvalid : isValidPhoneNumber (cleanPhoneNumber q) = true := by
      rcases List.mem_append.mp hqadds with h | h
      · exact phoneAddsFromText_valid _ _ h
      · by_cases hh : html.isEmpty = true
        · rw [if_pos hh] at h; exact absurd h (by simp)
        · rw [if_neg hh] at h
          exact phoneAddsFromHtml_valid _ _ h
    exact clean_format_shape q hvalid

/-- C2 (witness): the amended statement applied to a bare 8-digit string and
to a concrete extracted phone value. -/
theorem C2_witness :
    isValidPhoneNumber (str "12345678") = false ∧
    (((cleanPhoneNumber (str "99-34568")).all jsDigit = true ∧
      (cleanPhoneNumber (str "99-34568")).length = 7) ∨
     '+' ∈ cleanPhoneNumber (str "99-34568")) :=
  ⟨C2_amended_valid_phone_shape.1 (str "12345678") (by decide) (by decide),
   C2_amended_valid_phone_shape.2 (str "call 99-34568 now") [] (str "99-34568")
     (by decide)⟩

/-- C8: `extractEmails` returns at most 15 values; the validation stage
returns at most 10 and its list is sorted by descending
`calculateEmailConfidence` — so for any document (in particular one with 30
distinct valid emails) the caps hold and the validated list is
confidence-ranked. -/
theorem C8_cap_and_ranking (text html : Str) (emails : List Str) :
    (extractEmails text html).length ≤ 15 ∧
    (validateEmails emails).length ≤ 10 ∧
    (validateEmails emails).Pairwise
      (fun a b => calculateEmailConfidence b ≤ calculateEmailConfidence a) := by
  refine ⟨?_, ?_, ?_⟩
  · simp only [extractEmails]
    exact List.length_take_le _ _
  · simp only [validateEmails]
    rw [List.length_map]
    exact List.length_take_le _ _
  · simp only [validateEmails]
    rw [List.pairwise_map]
    have htot : ∀ a b : Str × ℚ,
        (decide (b.2 ≤ a.2)) = true ∨ (decide (a.2 ≤ b.2)) = true := by
      intro a b
      rcases le_total b.2 a.2 with h | h
      · exact Or.inl (decide_eq_true h)
      · exact Or.inr (decide_eq_true h)
    have htrans : ∀ a b c : Str × ℚ, (decide (b.2 ≤ a.2)) = true →
        (decide (c.2 ≤ b.2)) = true → (decide (c.2 ≤ a.2)) = true := by
      intro a b c h1 h2
      exact decide_eq_true (le_trans (of_decide_eq_true h2) (of_decide_eq_true h1))
    have hsorted := pairwise_sortB (fun a b : Str × ℚ => decide (b.2 ≤ a.2)) htot htrans
      (((emails.filter isValidEmail).filter (fun e => !isEmailFalsePositive e)).map
        (fun e => (e, calculateEmailConfidence e)))
    have htake := List.Pairwise.sublist (List.take_sublist 10 _) hsorted
    refine List.Pairwise.imp_of_mem ?_ htake
    intro a b ha hb hr
    have ha2 : a.2 = calculateEmailConfidence a.1 := by
      have hmem := (mem_sortB _ _ _).mp (List.mem_of_mem_take ha)
      rcases List.mem_map.mp hmem with ⟨e, _, rfl⟩
      rfl
    have hb2 : b.2 = calculateEmailConfidence b.1 := by
      have hmem := (mem_sortB _ _ _).mp (List.mem_of_mem_take hb)
      rcases List.mem_map.mp hmem with ⟨e, _, rfl⟩
      rfl
    rw [← ha2, ← hb2]
    exact of_decide_eq_true hr
